import Mathlib

/-!
Verification development for the accelerate-iq document pipeline.

The definitions below are a shallow embedding of the TypeScript sources:
  src/app/api/extract/route.ts, src/app/api/analyze/route.ts,
  src/lib/convertBankStatements.ts, src/lib/analyzeFinancials.ts,
  src/app/page.tsx.
JS numbers are modelled as exact rationals, strings as Lean strings over
their characters, and host primitives (JSON.parse, the Anthropic client,
XLSX.read) as explicit parameters or as faithful Lean re-implementations
of their documented semantics.
-/

namespace AccelerateIQ

/-! ## JS string primitives -/

/-- Characters matched by the regex class \s (ASCII part plus NBSP). -/
def isJsSpace (c : Char) : Bool :=
  c = ' ' || c = '\t' || c = '\n' || c = '\r' || c = '\x0b' || c = '\x0c' || c = ' '

/-- JS String.prototype.trim: remove leading and trailing whitespace. -/
def trimJS (s : String) : String :=
  String.mk (((s.data.dropWhile isJsSpace).reverse.dropWhile isJsSpace).reverse)

/-- JS s.substring(0, n), at the character level. -/
def jsSubstring (s : String) (n : Nat) : String :=
  String.mk (s.data.take n)

/-- JS s.padEnd(n, default space). -/
def jsPadEnd (s : String) (n : Nat) : String :=
  s ++ String.mk (List.replicate (n - s.length) ' ')

/-- Strip an exact (case-sensitive) prefix, returning the rest. -/
def stripPrefixExact : List Char → List Char → Option (List Char)
  | [], cs => some cs
  | _ :: _, [] => none
  | p :: ps, c :: cs => if p = c then stripPrefixExact ps cs else none

/-- Case-insensitive character comparison, as the regex /i flag does. -/
def charLowerEq (a b : Char) : Bool := a.toLower = b.toLower

/-- Strip a case-insensitive prefix, returning the rest. -/
def stripPrefixCI : List Char → List Char → Option (List Char)
  | [], cs => some cs
  | _ :: _, [] => none
  | p :: ps, c :: cs => if charLowerEq p c then stripPrefixCI ps cs else none

theorem stripPrefixExact_length {p cs r : List Char}
    (h : stripPrefixExact p cs = some r) : r.length + p.length = cs.length := by
  induction p generalizing cs with
  | nil => simp [stripPrefixExact] at h; simp [h]
  | cons a ps ih =>
    cases cs with
    | nil => simp [stripPrefixExact] at h
    | cons c cs =>
      simp only [stripPrefixExact] at h
      by_cases hac : a = c
      · simp [hac] at h
        have := ih h
        simp [List.length_cons]
        omega
      · simp [hac] at h

/-- JS s.replace(tok, repl) with a *string* pattern replaces only the first
occurrence; here specialised to empty replacement (used for
filename.replace(".pdf", "")). -/
def removeFirstAux (t : Char) (ts : List Char) : List Char → List Char
  | [] => []
  | c :: rest =>
    match stripPrefixExact (t :: ts) (c :: rest) with
    | some after => after
    | none => c :: removeFirstAux t ts rest

def removeFirst (s tok : String) : String :=
  match tok.data with
  | [] => s
  | t :: ts => String.mk (removeFirstAux t ts s.data)

/-- One pass of JS s.replace(/tok\n?/g, ""): remove every occurrence of the
literal token together with one directly following newline.  The walk keeps
a skip counter so that matching never restarts inside a removed token, as
the regex engine's lastIndex does. -/
def removeTokNLGo (tok : List Char) : Nat → Bool → List Char → List Char
  | _, _, [] => []
  | skip+1, nl, _ :: rest => removeTokNLGo tok skip nl rest
  | 0, nl, c :: rest =>
    if nl && c = '\n' then removeTokNLGo tok 0 false rest
    else
      match stripPrefixExact tok (c :: rest) with
      | some _ => removeTokNLGo tok (tok.length - 1) true rest
      | none => c :: removeTokNLGo tok 0 false rest

def removeTokenNL (tok s : String) : String :=
  match tok.data with
  | [] => s
  | t :: ts => String.mk (removeTokNLGo (t :: ts) 0 false s.data)

/-- The fence-stripping applied to every model reply before JSON.parse:
raw.replace of all "```json" fences, then of all "```" fences, then trim. -/
def cleanFences (raw : String) : String :=
  trimJS (removeTokenNL ("```") (removeTokenNL ("```json") raw))

/-! ## A model of JS values produced by JSON.parse -/

/-- The values JSON.parse can return.  Objects keep their fields in source
order; a duplicated key is kept at every position and read back with
last-key-wins semantics, as JS object literals do. -/
inductive JVal where
  | null : JVal
  | bool (b : Bool) : JVal
  /-- A JSON number, kept exactly as the decimal mant · 10 ^ exp10 (JS
  binary-float rounding is not modelled; every literal the claims exercise
  is exactly representable). -/
  | num (mant : ℤ) (exp10 : ℤ) : JVal
  | str (s : String) : JVal
  | arr (xs : List JVal) : JVal
  | obj (fields : List (String × JVal)) : JVal

/-- The rational value of a decimal mantissa/exponent pair. -/
def decVal (mant : ℤ) (exp10 : ℤ) : ℚ := (mant : ℚ) * (10 : ℚ) ^ exp10

/-- Property read on a parsed value (last binding of the key wins). -/
def JVal.getField : JVal → String → Option JVal
  | JVal.obj fs, k => ((fs.filter (fun p => p.1 = k)).getLast?).map (fun p => p.2)
  | _, _ => none

/-- Property write on a parsed object (other values are left unchanged; in
strict-mode JS an assignment to a primitive throws instead, which the
call sites model separately). -/
def JVal.setField : JVal → String → JVal → JVal
  | JVal.obj fs, k, v => JVal.obj ((fs.filter (fun p => ¬ p.1 = k)) ++ [(k, v)])
  | w, _, _ => w

/-- JS object spread {...v}: the fields when v is an object, nothing for
primitives (spread of a primitive contributes no enumerable properties;
the string case, which would contribute index properties, is not used by
any reply shape the routes construct). -/
def JVal.spread : JVal → List (String × JVal)
  | JVal.obj fs => fs
  | _ => []

/-! ## JSON.parse, re-implemented over characters

JSON whitespace is only space, tab, newline, carriage return.  Numbers are
read exactly into ℚ.  The fuel argument bounds the recursion depth; the
top-level call passes 2·|input|+2, which every JSON document respects
because each nesting or element step consumes at least one character. -/

def isJsonWs (c : Char) : Bool := c = ' ' || c = '\t' || c = '\n' || c = '\r'

def hexVal (c : Char) : Option Nat :=
  if '0' ≤ c ∧ c ≤ '9' then some (c.toNat - 48)
  else if 'a' ≤ c ∧ c ≤ 'f' then some (c.toNat - 87)
  else if 'A' ≤ c ∧ c ≤ 'F' then some (c.toNat - 70)
  else none

/-- Body of a JSON string, after the opening quote: returns the decoded
characters and the input that follows the closing quote. -/
def parseJStr : Nat → List Char → Option (List Char × List Char)
  | 0, _ => none
  | _, [] => none
  | f+1, c :: rest =>
    if c = '"' then some ([], rest)
    else if c = '\\' then
      match rest with
      | [] => none
      | e :: rest2 =>
        if e = '"' then (parseJStr f rest2).map (fun p => ('"' :: p.1, p.2))
        else if e = '\\' then (parseJStr f rest2).map (fun p => ('\\' :: p.1, p.2))
        else if e = '/' then (parseJStr f rest2).map (fun p => ('/' :: p.1, p.2))
        else if e = 'b' then (parseJStr f rest2).map (fun p => ('\x08' :: p.1, p.2))
        else if e = 'f' then (parseJStr f rest2).map (fun p => ('\x0c' :: p.1, p.2))
        else if e = 'n' then (parseJStr f rest2).map (fun p => ('\n' :: p.1, p.2))
        else if e = 'r' then (parseJStr f rest2).map (fun p => ('\r' :: p.1, p.2))
        else if e = 't' then (parseJStr f rest2).map (fun p => ('\t' :: p.1, p.2))
        else if e = 'u' then
          match rest2 with
          | h1 :: h2 :: h3 :: h4 :: rest3 =>
            match hexVal h1, hexVal h2, hexVal h3, hexVal h4 with
            | some a, some b, some c2, some d =>
              (parseJStr f rest3).map
                (fun p => (Char.ofNat (((a * 16 + b) * 16 + c2) * 16 + d) :: p.1, p.2))
            | _, _, _, _ => none
          | _ => none
        else none
    else if c.toNat < 32 then none
    else (parseJStr f rest).map (fun p => (c :: p.1, p.2))

def digitsToNat (ds : List Char) : Nat :=
  ds.foldl (fun a c => a * 10 + (c.toNat - 48)) 0

/-- JSON number grammar: -? (0 | [1-9][0-9]*) (. [0-9]+)? ([eE][+-]?[0-9]+)?,
read exactly as a decimal mantissa and power-of-ten exponent. -/
def parseJNum (cs : List Char) : Option ((ℤ × ℤ) × List Char) :=
  let (neg, cs1) :=
    match cs with
    | '-' :: r => (true, r)
    | _ => (false, cs)
  let intDs := cs1.takeWhile Char.isDigit
  let cs2 := cs1.dropWhile Char.isDigit
  if intDs.isEmpty then none
  else if intDs.length > 1 ∧ intDs.head? = some '0' then none
  else
    let (fracDs, cs3) :=
      match cs2 with
      | '.' :: r =>
        (r.takeWhile Char.isDigit, r.dropWhile Char.isDigit)
      | _ => ([], cs2)
    if cs2.head? = some '.' ∧ fracDs.isEmpty then none
    else
      let hasExp : Bool := cs3.head? = some 'e' || cs3.head? = some 'E'
      let (expOk, expNeg, expDs, cs4) :=
        match cs3 with
        | 'e' :: '+' :: r => (!(r.takeWhile Char.isDigit).isEmpty, false, r.takeWhile Char.isDigit, r.dropWhile Char.isDigit)
        | 'e' :: '-' :: r => (!(r.takeWhile Char.isDigit).isEmpty, true, r.takeWhile Char.isDigit, r.dropWhile Char.isDigit)
        | 'e' :: r => (!(r.takeWhile Char.isDigit).isEmpty, false, r.takeWhile Char.isDigit, r.dropWhile Char.isDigit)
        | 'E' :: '+' :: r => (!(r.takeWhile Char.isDigit).isEmpty, false, r.takeWhile Char.isDigit, r.dropWhile Char.isDigit)
        | 'E' :: '-' :: r => (!(r.takeWhile Char.isDigit).isEmpty, true, r.takeWhile Char.isDigit, r.dropWhile Char.isDigit)
        | 'E' :: r => (!(r.takeWhile Char.isDigit).isEmpty, false, r.takeWhile Char.isDigit, r.dropWhile Char.isDigit)
        | _ => (true, false, [], cs3)
      if hasExp && !expOk then none
      else
        let mAbs : ℤ := (digitsToNat intDs * 10 ^ fracDs.length + digitsToNat fracDs : ℕ)
        let mant : ℤ := if neg then -mAbs else mAbs
        let eSigned : ℤ := if expNeg then -(digitsToNat expDs : ℤ) else (digitsToNat expDs : ℤ)
        some ((mant, eSigned - (fracDs.length : ℤ)), cs4)

mutual

def parseJVal : Nat → List Char → Option (JVal × List Char)
  | 0, _ => none
  | f+1, cs =>
    match cs.dropWhile isJsonWs with
    | [] => none
    | c :: rest =>
      if c = '\x7b' then
        match rest.dropWhile isJsonWs with
        | '\x7d' :: r2 => some (JVal.obj [], r2)
        | r2 => (parseJObj f r2).map (fun p => (JVal.obj p.1, p.2))
      else if c = '[' then
        match rest.dropWhile isJsonWs with
        | ']' :: r2 => some (JVal.arr [], r2)
        | r2 => (parseJArr f r2).map (fun p => (JVal.arr p.1, p.2))
      else if c = '"' then
        (parseJStr (f+1) rest).map (fun p => (JVal.str (String.mk p.1), p.2))
      else
        match c :: rest with
        | 't' :: 'r' :: 'u' :: 'e' :: r => some (JVal.bool true, r)
        | 'f' :: 'a' :: 'l' :: 's' :: 'e' :: r => some (JVal.bool false, r)
        | 'n' :: 'u' :: 'l' :: 'l' :: r => some (JVal.null, r)
        | l => parseJNum l |>.map (fun p => (JVal.num p.1.1 p.1.2, p.2))

def parseJArr : Nat → List Char → Option (List JVal × List Char)
  | 0, _ => none
  | f+1, cs =>
    match parseJVal f cs with
    | none => none
    | some (v, rest) =>
      match rest.dropWhile isJsonWs with
      | ']' :: r2 => some ([v], r2)
      | ',' :: r2 => (parseJArr f r2).map (fun p => (v :: p.1, p.2))
      | _ => none

def parseJObj : Nat → List Char → Option (List (String × JVal) × List Char)
  | 0, _ => none
  | f+1, cs =>
    match cs.dropWhile isJsonWs with
    | '"' :: r1 =>
      match parseJStr f r1 with
      | none => none
      | some (kcs, r2) =>
        match r2.dropWhile isJsonWs with
        | ':' :: r3 =>
          match parseJVal f r3 with
          | none => none
          | some (v, r4) =>
            match r4.dropWhile isJsonWs with
            | '\x7d' :: r5 => some ([(String.mk kcs, v)], r5)
            | ',' :: r5 => (parseJObj f r5).map (fun p => ((String.mk kcs, v) :: p.1, p.2))
            | _ => none
        | _ => none
    | _ => none

end

/-- JSON.parse: whole-input parse; trailing non-whitespace is an error,
signalled here as none (the call sites catch the exception). -/
def jsonParse (s : String) : Option JVal :=
  match parseJVal (2 * s.data.length + 2) s.data with
  | some (v, rest) => if (rest.dropWhile isJsonWs).isEmpty then some v else none
  | none => none

/-! ## Number formatting shared by the two builders

Both builders declare the same local helper
fmt = n => `R ${n.toLocaleString('en-ZA', {0 fraction digits})}`.
toLocaleString rounds half away from zero and groups thousands with the
en-ZA separator (NBSP); toFixed(1) takes the sign first and rounds the
absolute value, ties towards the larger scaled integer. -/

def jsRoundHalfExpand (q : ℚ) : ℤ :=
  if q < 0 then -(Int.floor (-q + 1/2)) else Int.floor (q + 1/2)

def chunksRev : List Char → List (List Char)
  | a :: b :: c :: d :: rest => [a, b, c] :: chunksRev (d :: rest)
  | l => [l]

def groupThousands (n : ℕ) : String :=
  String.mk ((List.intercalate ['\xa0'] (chunksRev (toString n).data.reverse)).reverse)

def localeZA (q : ℚ) : String :=
  let n := jsRoundHalfExpand q
  (if n < 0 then ("-") else ("")) ++ groupThousands n.natAbs

def fmtR (q : ℚ) : String := ("R ") ++ localeZA q

/-- JS Number.prototype.toFixed(1), following the ECMA-262 algorithm: the
sign is taken off first (if x < 0, s is "-" and x is -x), then n is the
integer with n / 10 closest to the remaining nonnegative x, ties going to
the larger n.  So the magnitude rounds half up: (-0.25).toFixed(1) is
"-0.3", and a negative value rounding to zero keeps its sign,
(-0.04).toFixed(1) = "-0.0", as this model does. -/
def toFixed1 (q : ℚ) : String :=
  let n := (Int.floor (|q| * 10 + 1/2)).toNat
  (if q < 0 then ("-") else ("")) ++ toString (n / 10) ++ (".") ++ toString (n % 10)

/-! ## convertBankStatements.ts — per-file extraction and text builder -/

/-- The MonthExtraction interface of convertBankStatements.ts. -/
structure MonthExtraction where
  period : String
  credits : ℚ
  debits : ℚ
  openingBal : ℚ
  closingBal : ℚ
  topIncome : List String
  topExpenses : List String
  error : Option String := none

/-- Reads of a parsed reply at the MonthExtraction interface.  The TS cast
`JSON.parse(clean) as MonthExtraction` validates nothing; each field is
read here at its declared type, with the type's zero value when the reply
does not carry it at that type.  This is a narrowing: the code keeps the
raw value, and a wrong-typed field would flow into downstream JS
comparisons and + with coercions — the claims about that aggregation are
therefore stated over raw JVal records, never through this reading. -/
def JVal.getNum (v : JVal) (k : String) : ℚ :=
  match v.getField k with
  | some (JVal.num m e) => decVal m e
  | _ => 0

def JVal.getStr (v : JVal) (k : String) : String :=
  match v.getField k with
  | some (JVal.str s) => s
  | _ => ("")

def JVal.getStrList (v : JVal) (k : String) : List String :=
  match v.getField k with
  | some (JVal.arr xs) =>
    xs.filterMap (fun x => match x with | JVal.str s => some s | _ => none)
  | _ => []

def JVal.getStrOpt (v : JVal) (k : String) : Option String :=
  match v.getField k with
  | some (JVal.str s) => some s
  | _ => none

def asMonthExtraction (v : JVal) : MonthExtraction :=
  { period := v.getStr ("period")
    credits := v.getNum ("credits")
    debits := v.getNum ("debits")
    openingBal := v.getNum ("openingBal")
    closingBal := v.getNum ("closingBal")
    topIncome := v.getStrList ("topIncome")
    topExpenses := v.getStrList ("topExpenses")
    error := v.getStrOpt ("error") }

/-- The catch-branch record of extractPDFMonthlyData. -/
def fallbackMonth (filename : String) : MonthExtraction :=
  { period := removeFirst filename (".pdf")
    credits := 0, debits := 0, openingBal := 0, closingBal := 0
    topIncome := [], topExpenses := []
    error := some (("Could not extract data from ") ++ filename) }

/-- extractPDFMonthlyData: the outcome parameter is the Anthropic call —
an API failure (Except.error) or the model's text reply.  JSON.parse is
inside the same try block, so a reply that fails to parse lands in the
same catch and yields the fallback record. -/
def extractPDFMonthlyData (filename : String) (outcome : Except String String) :
    MonthExtraction :=
  match outcome with
  | Except.error _ => fallbackMonth filename
  | Except.ok raw =>
    match jsonParse (cleanFences raw) with
    | some v => asMonthExtraction v
    | none => fallbackMonth filename

/-- validMonths = months.filter(m => m.credits > 0 || m.debits > 0). -/
def validMonths (months : List MonthExtraction) : List MonthExtraction :=
  months.filter (fun m => decide (0 < m.credits) || decide (0 < m.debits))

def libMonthCount (months : List MonthExtraction) : ℕ := (validMonths months).length

def libTotalCredits (months : List MonthExtraction) : ℚ :=
  (validMonths months).foldl (fun sum m => sum + m.credits) 0

def libTotalDebits (months : List MonthExtraction) : ℚ :=
  (validMonths months).foldl (fun sum m => sum + m.debits) 0

def libNetProfit (months : List MonthExtraction) : ℚ :=
  libTotalCredits months - libTotalDebits months

def libGrossMargin (months : List MonthExtraction) : String :=
  if 0 < libTotalCredits months then
    toFixed1 ((libTotalCredits months - libTotalDebits months) / libTotalCredits months * 100)
  else ("0")

def libOpeningBal (months : List MonthExtraction) : ℚ :=
  ((validMonths months).head?).elim 0 (fun m => m.openingBal)

def libClosingBal (months : List MonthExtraction) : ℚ :=
  ((validMonths months).getLast?).elim 0 (fun m => m.closingBal)

def libPeriods (months : List MonthExtraction) : List String :=
  ((validMonths months).map (fun m => m.period)).filter (fun p => !(p == ""))

def periodRangeOf (ps : List String) : String :=
  match ps.head?, ps.getLast? with
  | some a, some b => a ++ (" – ") ++ b
  | _, _ => ("Full Year")

/-- JS `x || d` on a string already in hand. -/
def orUnknown (p : String) : String := if p = ("") then ("Unknown") else p

/-- One monthly-breakdown row, shared shape of both builders. -/
def monthRowText (p : String) (c d : ℚ) : String :=
  jsPadEnd p 15 ++ (" | ") ++ jsPadEnd (fmtR c) 14 ++ (" | ") ++
    jsPadEnd (fmtR d) 14 ++ (" | ") ++ fmtR (c - d)

def libMonthRows (months : List MonthExtraction) : String :=
  String.intercalate ("\n")
    ((validMonths months).map (fun m => monthRowText (orUnknown m.period) m.credits m.debits))

/-- x.slice(0,10).map(s => `- ${s}`).join('\n') || default. -/
def bulletsOr (xs : List String) (d : String) : String :=
  let t := String.intercalate ("\n") ((xs.take 10).map (fun s => ("- ") ++ s))
  if t = ("") then d else t

def failedMonthsText (months : List MonthExtraction) : String :=
  String.intercalate ("\n")
    (((months.filterMap (fun m => m.error)).filter (fun e => !(e == ""))).map
      (fun e => ("- ") ++ e))

/-- buildManagementAccountsText of convertBankStatements.ts. -/
def buildManagementAccountsText (months : List MonthExtraction)
    (businessName sector : String) : String :=
  let vm := validMonths months
  let totalCredits := libTotalCredits months
  let totalDebits := libTotalDebits months
  let netProfit := totalCredits - totalDebits
  let grossMargin := libGrossMargin months
  let openingBal := libOpeningBal months
  let closingBal := libClosingBal months
  let periodRange := periodRangeOf (libPeriods months)
  let allIncome := vm.flatMap (fun m => m.topIncome)
  let allExpenses := vm.flatMap (fun m => m.topExpenses)
  let failed := failedMonthsText months
  ("=== MANAGEMENT ACCOUNTS ===\nBusiness: ") ++ businessName ++
  ("\nSector: ") ++ sector ++
  ("\nPeriod: ") ++ periodRange ++
  ("\nPrepared from: Bank Statement Analysis (") ++ toString vm.length ++
  (" month") ++ (if vm.length ≠ 1 then ("s") else ("")) ++ (")\n") ++
  (if failed ≠ ("") then ("\nNote: Some files could not be processed:\n") ++ failed ++ ("\n") else ("")) ++
  ("\n--- INCOME STATEMENT ---\nREVENUE\n  Sales / Income (total credits):    ") ++ fmtR totalCredits ++
  ("\n  Other Income:                      R 0\nTOTAL REVENUE:                       ") ++ fmtR totalCredits ++
  ("\n\nCOST OF SALES\n  Cost of Goods Sold / Direct Costs: R 0 (estimated from bank data)\nGROSS PROFIT:                        ") ++ fmtR totalCredits ++
  ("\nGROSS PROFIT MARGIN:                 ~") ++ grossMargin ++ ("% (estimate from banking data)\n\nOPERATING EXPENSES\n  Total Payments / Expenses:         ") ++ fmtR totalDebits ++
  ("\nTOTAL OPERATING EXPENSES:            ") ++ fmtR totalDebits ++
  ("\n\nNET PROFIT / (LOSS):                 ") ++ fmtR netProfit ++
  ("\nNET PROFIT MARGIN:                   ") ++ grossMargin ++
  ("%\n\n--- CASH FLOW SUMMARY ---\nOpening Balance:                     ") ++ fmtR openingBal ++
  ("\nTotal Receipts (Credits):            ") ++ fmtR totalCredits ++
  ("\nTotal Payments (Debits):             ") ++ fmtR totalDebits ++
  ("\nClosing Balance:                     ") ++ fmtR closingBal ++
  ("\nNet Cash Movement:                   ") ++ fmtR (closingBal - openingBal) ++
  ("\n\n--- MONTHLY BREAKDOWN ---\nMonth           | Total Credits  | Total Debits   | Net\n") ++
  libMonthRows months ++
  ("\n\n--- TOP INCOME SOURCES (across all months) ---\n") ++
  bulletsOr allIncome ("- No income data extracted") ++
  ("\n\n--- TOP EXPENSE CATEGORIES (across all months) ---\n") ++
  bulletsOr allExpenses ("- No expense data extracted") ++
  ("\n\n=== END OF MANAGEMENT ACCOUNTS ===")

structure ManagementAccountsOutput where
  convertedText : String
  periodCovered : String
  transactionCount : ℕ
  totalCredits : ℚ
  totalDebits : ℚ

/-- convertBankStatementsToManagementAccounts (the per-file parallel
version).  files lists the PDF files with the outcome of each file's
Anthropic call; Promise.all over never-rejecting per-file extractions is
the map below.  extraText is the text the xlsx host library produced from
the non-PDF files and otherFileCount their number. -/
def convertBankStatementsToManagementAccounts
    (files : List (String × Except String String))
    (businessName sector : String)
    (extraText : String) (otherFileCount : ℕ) : ManagementAccountsOutput :=
  let monthExtractions := files.map (fun f => extractPDFMonthlyData f.1 f.2)
  let text0 := buildManagementAccountsText monthExtractions businessName sector
  let convertedText :=
    if extraText = ("") then text0
    else text0 ++ ("\n\n--- ADDITIONAL DATA ---\n") ++ extraText
  let periods := (monthExtractions.map (fun m => m.period)).filter (fun p => !(p == ""))
  { convertedText := convertedText
    periodCovered :=
      match periods.head?, periods.getLast? with
      | some a, some b => a ++ (" – ") ++ b
      | _, _ => if 0 < files.length + otherFileCount then ("Submitted period") else ("Full Year")
    transactionCount := monthExtractions.length * 30
    totalCredits := monthExtractions.foldl (fun s m => s + m.credits) 0
    totalDebits := monthExtractions.foldl (fun s m => s + m.debits) 0 }

/-! ## analyze/route.ts — buildManagementAccountsFromExtractions

The route receives the extraction records as Record<string, unknown>.
ExtractionRec is the numeric/string-field view of such a record — the
shape the extract route itself produces and the reading under which the
builders compute sums.  It cannot carry a truthy non-numeric credits or
debits value; the aggregation over raw, untyped field values (where
`(x as number) || 0` keeps truthy non-numbers and + concatenates) is
embedded separately below over JVal, and the claims quantify over
whichever domain their statement needs. -/

structure ExtractionRec where
  rtype : Option String := none
  filename : Option String := none
  rawText : Option String := none
  period : Option String := none
  credits : Option ℚ := none
  debits : Option ℚ := none
  openingBal : Option ℚ := none
  closingBal : Option ℚ := none
  topIncome : Option (List String) := none
  topExpenses : Option (List String) := none

/-- JS `(x as number) || 0` restricted to the numeric-field view: 0 for a
missing field, the number otherwise (|| maps the falsy 0 to 0 itself).
Over raw values JS zeroes only falsy non-numbers and keeps truthy ones;
that unrestricted semantics is jsOr0 below. -/
def orZero (o : Option ℚ) : ℚ := o.getD 0

/-- JS `String(x || d)` for an unknown-typed string field. -/
def jsStringOr (o : Option String) (d : String) : String :=
  match o with
  | some p => if p = ("") then d else p
  | none => d

def routeMonthly (exts : List ExtractionRec) : List ExtractionRec :=
  exts.filter (fun e => e.rtype == some ("monthly"))

def routeTexts (exts : List ExtractionRec) : List ExtractionRec :=
  exts.filter (fun e => e.rtype == some ("text"))

def routeMonthCount (exts : List ExtractionRec) : ℕ := (routeMonthly exts).length

def routeTotalCredits (exts : List ExtractionRec) : ℚ :=
  (routeMonthly exts).foldl (fun s m => s + orZero m.credits) 0

def routeTotalDebits (exts : List ExtractionRec) : ℚ :=
  (routeMonthly exts).foldl (fun s m => s + orZero m.debits) 0

def routeNetProfit (exts : List ExtractionRec) : ℚ :=
  routeTotalCredits exts - routeTotalDebits exts

def routeOpeningBal (exts : List ExtractionRec) : ℚ :=
  ((routeMonthly exts).head?).elim 0 (fun m => (m.openingBal).getD 0)

def routeClosingBal (exts : List ExtractionRec) : ℚ :=
  ((routeMonthly exts).getLast?).elim 0 (fun m => (m.closingBal).getD 0)

def routePeriods (exts : List ExtractionRec) : List String :=
  ((routeMonthly exts).filterMap (fun m => m.period)).filter (fun p => !(p == ""))

def routeGrossMargin (exts : List ExtractionRec) : String :=
  if 0 < routeTotalCredits exts then
    toFixed1 (routeNetProfit exts / routeTotalCredits exts * 100)
  else ("0")

def routeMonthRows (exts : List ExtractionRec) : String :=
  String.intercalate ("\n")
    ((routeMonthly exts).map
      (fun m => monthRowText (jsStringOr m.period ("Unknown")) (orZero m.credits) (orZero m.debits)))

/-- buildManagementAccountsFromExtractions of analyze/route.ts. -/
def buildManagementAccountsFromExtractions (exts : List ExtractionRec)
    (businessName sector : String) : String :=
  let monthly := routeMonthly exts
  let texts := routeTexts exts
  let totalCredits := routeTotalCredits exts
  let totalDebits := routeTotalDebits exts
  let netProfit := routeNetProfit exts
  let openingBal := routeOpeningBal exts
  let closingBal := routeClosingBal exts
  let periodRange := periodRangeOf (routePeriods exts)
  let grossMargin := routeGrossMargin exts
  let allIncome := monthly.flatMap (fun m => (m.topIncome).getD [])
  let allExpenses := monthly.flatMap (fun m => (m.topExpenses).getD [])
  let base :=
    ("=== MANAGEMENT ACCOUNTS ===\nBusiness: ") ++ businessName ++
    ("\nSector: ") ++ sector ++
    ("\nPeriod: ") ++ periodRange ++
    ("\nPrepared from: Bank Statement Analysis (") ++ toString monthly.length ++
    (" month") ++ (if monthly.length ≠ 1 then ("s") else ("")) ++ (")\n\n") ++
    ("--- INCOME STATEMENT ---\nTOTAL REVENUE (bank credits):        ") ++ fmtR totalCredits ++
    ("\nTOTAL EXPENSES (bank debits):        ") ++ fmtR totalDebits ++
    ("\nNET PROFIT / (LOSS):                 ") ++ fmtR netProfit ++
    ("\nNET PROFIT MARGIN:                   ") ++ grossMargin ++
    ("%\n\n--- CASH FLOW SUMMARY ---\nOpening Balance:                     ") ++ fmtR openingBal ++
    ("\nTotal Receipts (Credits):            ") ++ fmtR totalCredits ++
    ("\nTotal Payments (Debits):             ") ++ fmtR totalDebits ++
    ("\nClosing Balance:                     ") ++ fmtR closingBal ++
    ("\n\n--- MONTHLY BREAKDOWN ---\nMonth           | Total Credits  | Total Debits   | Net\n") ++
    routeMonthRows exts ++
    ("\n\n--- TOP INCOME SOURCES ---\n") ++
    bulletsOr allIncome ("- No income data") ++
    ("\n\n--- TOP EXPENSE CATEGORIES ---\n") ++
    bulletsOr allExpenses ("- No expense data") ++
    ("\n\n=== END OF MANAGEMENT ACCOUNTS ===")
  if texts.length > 0 then
    base ++ ("\n\n--- ADDITIONAL DOCUMENTS ---\n") ++
      String.join
        (texts.map (fun t =>
          ("\n=== ") ++ (t.filename).getD ("Document") ++ (" ===\n") ++
            jsSubstring ((t.rawText).getD ("")) 4000))
  else base

/-! ## analyze/route.ts — the aggregation over raw JS values

ExtractionRec above is the numeric-field view of a record; the claims
that use it supply hypotheses under which the fields really are numbers.
The route itself, however, folds over untyped JSON: `(m.credits as
number) || 0` zeroes only *falsy* values, and a truthy non-number is kept
and fed to +, which string-concatenates or coerces.  The definitions
below embed that aggregation directly over JVal. -/

/-- JS truthiness of a JSON value: null, false, 0 and "" are falsy;
every array and object (even empty) is truthy. -/
def jsTruthy : JVal → Bool
  | JVal.null => false
  | JVal.bool b => b
  | JVal.num m _ => decide (m ≠ 0)
  | JVal.str s => decide (s ≠ (""))
  | JVal.arr _ => true
  | JVal.obj _ => true

/-- `(x as number) || 0` on a possibly-missing field: the cast is a no-op,
|| replaces only falsy values (and a missing field) with 0. -/
def jsOr0 (o : Option JVal) : JVal :=
  match o with
  | some v => if jsTruthy v then v else JVal.num 0 0
  | none => JVal.num 0 0

/-- Digits of a natural number, without the library's toDigits (kept
kernel-evaluable). -/
def natDigitsAux : ℕ → ℕ → List Char
  | 0, _ => []
  | _, 0 => []
  | f+1, n => natDigitsAux f (n / 10) ++ [Char.ofNat (48 + n % 10)]

def natToStr (n : ℕ) : String :=
  if n = 0 then ("0") else String.mk (natDigitsAux (n + 1) n)

def natPad (n width : ℕ) : String :=
  String.mk (List.replicate (width - (natToStr n).length) ('0')) ++ natToStr n

/-- JS ToString of a number.  Integers are exact; a terminating decimal of
up to 20 places is printed with its point (the minimal width drops
trailing zeros as JS does); the exponent forms JS uses past that range
are outside every value the pipeline handles and are not modelled. -/
def jsNumToStr (q : ℚ) : String :=
  if q.den = 1 then
    (if q.num < 0 then ("-") else ("")) ++ natToStr q.num.natAbs
  else
    match (List.range 20).find? (fun k => (q * (10 : ℚ) ^ (k + 1)).den = 1) with
    | some k =>
      let m := (q * (10 : ℚ) ^ (k + 1)).num
      (if m < 0 then ("-") else ("")) ++
        natToStr (m.natAbs / 10 ^ (k + 1)) ++ (".") ++ natPad (m.natAbs % 10 ^ (k + 1)) (k + 1)
    | none => toString q.num ++ ("/") ++ toString q.den

mutual

/-- JS ToString / ToPrimitive of a JSON value: arrays join their elements
with commas (null printing as empty inside a join), objects print as
[object Object]. -/
def jsToStr : JVal → String
  | JVal.null => ("null")
  | JVal.bool true => ("true")
  | JVal.bool false => ("false")
  | JVal.num m e => jsNumToStr (decVal m e)
  | JVal.str s => s
  | JVal.arr xs => String.intercalate (",") (jsToStrElems xs)
  | JVal.obj _ => ("[object Object]")

def jsToStrElems : List JVal → List String
  | [] => []
  | JVal.null :: t => ("") :: jsToStrElems t
  | v :: t => jsToStr v :: jsToStrElems t

end

/-- The accumulator of the route's reduce: a JS number or, once a string
has been concatenated in, a string. -/
inductive JSAcc where
  | num (q : ℚ)
  | str (s : String)

/-- JS + of the accumulator and a (post-|| 0) field value: numbers add,
a boolean coerces to 0/1, null to 0, and any string operand — including
the ToPrimitive string of an array or object — switches to
concatenation. -/
def jsAdd (s : JSAcc) (v : JVal) : JSAcc :=
  match s, v with
  | JSAcc.num a, JVal.num m e => JSAcc.num (a + decVal m e)
  | JSAcc.num a, JVal.bool b => JSAcc.num (a + (if b then 1 else 0))
  | JSAcc.num a, JVal.null => JSAcc.num a
  | JSAcc.num a, JVal.str t => JSAcc.str (jsNumToStr a ++ t)
  | JSAcc.num a, v2 => JSAcc.str (jsNumToStr a ++ jsToStr v2)
  | JSAcc.str t, v2 => JSAcc.str (t ++ jsToStr v2)

/-- e.type === 'monthly' over a raw record: true exactly when the type
field is the string "monthly". -/
def isMonthlyJS (e : JVal) : Bool :=
  match JVal.getField e ("type") with
  | some (JVal.str s) => s == ("monthly")
  | _ => false

def monthlyJS (exts : List JVal) : List JVal := exts.filter isMonthlyJS

def routeTotalCreditsJS (exts : List JVal) : JSAcc :=
  (monthlyJS exts).foldl (fun s m => jsAdd s (jsOr0 (JVal.getField m ("credits")))) (JSAcc.num 0)

def routeTotalDebitsJS (exts : List JVal) : JSAcc :=
  (monthlyJS exts).foldl (fun s m => jsAdd s (jsOr0 (JVal.getField m ("debits")))) (JSAcc.num 0)

/-- JS ToNumber of a string: trimmed empty is 0, a decimal literal its
value, anything else NaN (none).  The hex/octal/binary and Infinity forms
are outside every value the pipeline handles and are not modelled. -/
def jsStrToNumber (s : String) : Option ℚ :=
  let cs := ((s.data.dropWhile isJsSpace).reverse.dropWhile isJsSpace).reverse
  if cs.isEmpty then some 0
  else
    let (neg, cs1) :=
      match cs with
      | '-' :: r => (true, r)
      | '+' :: r => (false, r)
      | _ => (false, cs)
    let intDs := cs1.takeWhile Char.isDigit
    let cs2 := cs1.dropWhile Char.isDigit
    let (fracDs, cs3) :=
      match cs2 with
      | '.' :: r => (r.takeWhile Char.isDigit, r.dropWhile Char.isDigit)
      | _ => ([], cs2)
    if intDs.isEmpty && fracDs.isEmpty then none
    else
      let (expOk, expNeg, expDs, cs4) :=
        match cs3 with
        | 'e' :: '+' :: r => (!(r.takeWhile Char.isDigit).isEmpty, false, r.takeWhile Char.isDigit, r.dropWhile Char.isDigit)
        | 'e' :: '-' :: r => (!(r.takeWhile Char.isDigit).isEmpty, true, r.takeWhile Char.isDigit, r.dropWhile Char.isDigit)
        | 'e' :: r => (!(r.takeWhile Char.isDigit).isEmpty, false, r.takeWhile Char.isDigit, r.dropWhile Char.isDigit)
        | 'E' :: '+' :: r => (!(r.takeWhile Char.isDigit).isEmpty, false, r.takeWhile Char.isDigit, r.dropWhile Char.isDigit)
        | 'E' :: '-' :: r => (!(r.takeWhile Char.isDigit).isEmpty, true, r.takeWhile Char.isDigit, r.dropWhile Char.isDigit)
        | 'E' :: r => (!(r.takeWhile Char.isDigit).isEmpty, false, r.takeWhile Char.isDigit, r.dropWhile Char.isDigit)
        | _ => (true, false, [], cs3)
      if !expOk || !cs4.isEmpty then none
      else
        let mAbs : ℤ := (digitsToNat intDs * 10 ^ fracDs.length + digitsToNat fracDs : ℕ)
        let mant : ℤ := if neg then -mAbs else mAbs
        let eSigned : ℤ := if expNeg then -(digitsToNat expDs : ℤ) else (digitsToNat expDs : ℤ)
        some (decVal mant (eSigned - (fracDs.length : ℤ)))

/-- JS ToNumber of the accumulator; none models NaN. -/
def jsToNumberAcc : JSAcc → Option ℚ
  | JSAcc.num a => some a
  | JSAcc.str s => jsStrToNumber s

/-- netProfit = totalCredits - totalDebits: JS - coerces both operands to
numbers; NaN (none) propagates. -/
def routeNetProfitJS (exts : List JVal) : Option ℚ :=
  match jsToNumberAcc (routeTotalCreditsJS exts), jsToNumberAcc (routeTotalDebitsJS exts) with
  | some a, some b => some (a - b)
  | _, _ => none

/-- totalCredits > 0 ? ((netProfit / totalCredits) * 100).toFixed(1) : '0'
over raw values: > coerces to ToNumber and NaN compares false; toFixed of
a NaN net profit prints "NaN". -/
def routeGrossMarginJS (exts : List JVal) : String :=
  match jsToNumberAcc (routeTotalCreditsJS exts) with
  | some tc =>
    if 0 < tc then
      match routeNetProfitJS exts with
      | some np => toFixed1 (np / tc * 100)
      | none => ("NaN")
    else ("0")
  | none => ("0")

/-- The value `(x as number) || 0` contributes to a numeric sum when the
field is a number, missing, or falsy. -/
def orZeroJS : Option JVal → ℚ
  | some (JVal.num m e) => decVal m e
  | _ => 0

/-- A field a numeric reading is valid for: missing, a number, or a falsy
value (which || turns into 0).  Truthy non-numbers fall outside. -/
def numOrFalsy : Option JVal → Bool
  | none => true
  | some (JVal.num _ _) => true
  | some v => !jsTruthy v

/-- The record the extract route sends for a successfully parsed monthly
extraction, as the analyze route reads it back. -/
def toExtractionRec (m : MonthExtraction) : ExtractionRec :=
  { rtype := some ("monthly")
    period := some m.period
    credits := some m.credits
    debits := some m.debits
    openingBal := some m.openingBal
    closingBal := some m.closingBal
    topIncome := some m.topIncome
    topExpenses := some m.topExpenses }

/-! ## analyzeFinancials.ts — the FinancialAnalysis display schema -/

structure Kpis where
  revenue : String
  revenueChange : String
  revenueChangePositive : Bool
  grossMargin : String
  grossMarginVsSector : String
  grossMarginPositive : Bool
  netMargin : String
  netMarginVsSector : String
  netMarginPositive : Bool
  currentRatio : String
  currentRatioNote : String
  currentRatioPositive : Bool
  cashRunway : String
  cashRunwayNote : String
  cashRunwayPositive : Bool
  debtToEquity : String
  debtToEquityNote : String
  debtToEquityPositive : Bool

structure MonthPoint where
  month : String
  revenue : ℚ
  expenses : ℚ

structure Recommendation where
  priority : String
  title : String
  description : String

structure SupportArea where
  icon : String
  label : String
  level : String

structure FinancialAnalysis where
  businessName : String
  period : String
  healthScore : ℚ
  healthGrade : String
  healthSummary : String
  kpis : Kpis
  monthlyData : List MonthPoint
  recommendations : List Recommendation
  supportAreas : List SupportArea
  executiveSummary : String
  keyStrengths : List String
  keyRisks : List String

/-- JS toLowerCase (ASCII range; no claim input leaves it). -/
def jsToLower (s : String) : String := String.mk (s.data.map Char.toLower)

/-- getMockAnalysis of analyze/route.ts. -/
def getMockAnalysis (businessName sector stage yearEnd : String) : FinancialAnalysis :=
  { businessName := businessName
    period := ("FY ") ++ yearEnd
    healthScore := 67
    healthGrade := ("Moderate")
    healthSummary :=
      businessName ++ (" shows strong revenue growth momentum but faces cash flow pressure typical for ") ++
        jsToLower stage ++ (" businesses in the ") ++ sector ++ (" sector.")
    kpis :=
      { revenue := ("R 2.4M"), revenueChange := ("↑ 18% YoY"), revenueChangePositive := true
        grossMargin := ("34%"), grossMarginVsSector := ("↓ 4pp below sector avg (38%)"), grossMarginPositive := false
        netMargin := ("7.2%"), netMarginVsSector := ("≈ sector avg (7%)"), netMarginPositive := true
        currentRatio := ("1.3×"), currentRatioNote := ("Below healthy threshold of 2×"), currentRatioPositive := false
        cashRunway := ("3.1 mo"), cashRunwayNote := ("⚠ Low — action needed"), cashRunwayPositive := false
        debtToEquity := ("0.8×"), debtToEquityNote := ("✓ Within healthy range"), debtToEquityPositive := true }
    monthlyData :=
      [ ⟨("Jan"), 165000, 140000⟩, ⟨("Feb"), 175000, 148000⟩,
        ⟨("Mar"), 180000, 152000⟩, ⟨("Apr"), 195000, 158000⟩,
        ⟨("May"), 190000, 162000⟩, ⟨("Jun"), 210000, 170000⟩,
        ⟨("Jul"), 205000, 168000⟩, ⟨("Aug"), 220000, 175000⟩,
        ⟨("Sep"), 215000, 178000⟩, ⟨("Oct"), 235000, 185000⟩,
        ⟨("Nov"), 230000, 190000⟩, ⟨("Dec"), 380000, 275000⟩ ]
    recommendations :=
      [ ⟨("high"), ("Cash Runway Critical"), ("Only 3.1 months of cash. Review debtor collections and consider working capital financing.")⟩,
        ⟨("medium"), ("Gross Margin Below Sector"), ("Margin 4pp below benchmark. Review COGS and supplier contracts.")⟩,
        ⟨("low"), ("Revenue Growth Strong"), ("18% YoY growth above sector average. Invest in sales capacity.")⟩ ]
    supportAreas :=
      [ ⟨("💰"), ("Cash Flow Management"), ("urgent")⟩,
        ⟨("📋"), ("Debtor Management & Collections"), ("urgent")⟩,
        ⟨("📊"), ("Pricing & Margin Optimisation"), ("recommended")⟩,
        ⟨("🏦"), ("Working Capital Financing"), ("recommended")⟩,
        ⟨("📈"), ("Financial Reporting & Forecasting"), ("recommended")⟩,
        ⟨("🌱"), ("Growth Strategy & Planning"), ("optional")⟩ ]
    executiveSummary :=
      businessName ++ (" is a ") ++ jsToLower stage ++ (" business in ") ++ sector ++
        (" with 18% YoY revenue growth.\n\nCash runway of 3.1 months requires immediate attention. Current ratio of 1.3× is below the healthy threshold.\n\nGross margins at 34% are 4pp below sector average, representing an improvement opportunity.\n\nPrioritise cash flow management and working capital solutions.")
    keyStrengths :=
      [ ("18% YoY revenue growth above sector average"), ("Net margin in line with benchmarks"), ("Manageable debt-to-equity of 0.8×") ]
    keyRisks :=
      [ ("Cash runway of only 3.1 months"), ("Current ratio below 2× threshold"), ("Gross margin 4pp below sector") ] }

/-- Reply handling of analyzeFinancials: strip fences, JSON.parse, and
return the parsed value as the FinancialAnalysis through an unchecked
cast; a parse failure throws. -/
def analyzeFinancialsReply (responseText : String) : Except String JVal :=
  match jsonParse (cleanFences responseText) with
  | some v => Except.ok v
  | none => Except.error ("Failed to parse AI analysis response")

/-! ## analyze/route.ts — the POST handler -/

structure AnalyzeBody where
  businessName : String
  sector : String
  stage : String
  yearEnd : String
  inputType : String
  extractions : List ExtractionRec

/-- What a successful analyze response delivers: the mock record, or the
model's parsed reply passed through the unchecked cast. -/
inductive AnalyzeOk where
  | mock (a : FinancialAnalysis)
  | model (v : JVal)

inductive AnalyzeResp where
  | ok (a : AnalyzeOk)
  | err (status : ℕ) (msg : String)

/-- analyze: !process.env.ANTHROPIC_API_KEY || key === 'your_api_key_here'. -/
def keyMissingAnalyze (env : Option String) : Bool :=
  match env with
  | none => true
  | some k => k == ("") || k == ("your_api_key_here")

/-- extract: !process.env.ANTHROPIC_API_KEY (the unset and empty cases). -/
def keyMissingExtract (env : Option String) : Bool :=
  match env with
  | none => true
  | some k => k == ("")

def demoModeMock (b s st y : String) : FinancialAnalysis :=
  let m := getMockAnalysis b s st y
  { m with healthSummary :=
      ("⚠️ DEMO MODE — No API key configured on this server. Set ANTHROPIC_API_KEY in your Vercel environment variables and redeploy. ") ++
        m.healthSummary }

def apiErrorMock (b s st y : String) : FinancialAnalysis :=
  let m := getMockAnalysis b s st y
  { m with healthSummary := ("[Demo Mode — API error] ") ++ m.healthSummary }

def conversionNote (body : AnalyzeBody) : String :=
  if body.inputType == ("bank") then
    let periods :=
      (body.extractions.filter
        (fun e => e.rtype == some ("monthly") &&
          (match e.period with | some p => !(p == "") | none => false))).filterMap
        (fun e => e.period)
    match periods.head?, periods.getLast? with
    | some a, some b =>
      ("[Converted from ") ++ toString periods.length ++ (" bank statement(s): ") ++
        a ++ (" – ") ++ b ++ ("] ")
    | _, _ => ("")
  else ("")

/-- The combined text the route builds and ships to the model (whose reply
is the modelOutcome parameter of analyzePOST). -/
def analyzeCombinedText (body : AnalyzeBody) : String :=
  if body.inputType == ("bank") then
    buildManagementAccountsFromExtractions body.extractions body.businessName body.sector
  else
    String.intercalate ("\n")
      (body.extractions.map
        (fun e => ("\n\n=== ") ++ (e.filename).getD ("Document") ++ (" ===\n") ++ (e.rawText).getD ("")))

/-- conversionNote + analysis.healthSummary written back onto the parsed
object.  JS string coercion of a non-string field is modelled for the
missing/null/boolean cases; the call sites below only reach this with an
object value. -/
def prependHealthSummary (note : String) (v : JVal) : JVal :=
  let old :=
    match JVal.getField v ("healthSummary") with
    | some (JVal.str s) => s
    | some JVal.null => ("null")
    | some (JVal.bool true) => ("true")
    | some (JVal.bool false) => ("false")
    | _ => ("undefined")
  JVal.setField v ("healthSummary") (JVal.str (note ++ old))

/-- The analyze POST handler.  modelOutcome is the analyzeFinancials call:
a network/API failure, or the model's reply text.  In strict mode the
healthSummary assignment on a non-object parse result throws, which the
surrounding catch turns into the API-error mock. -/
def analyzePOST (env : Option String) (body : AnalyzeBody)
    (modelOutcome : Except String String) : AnalyzeResp :=
  if body.extractions.isEmpty then
    AnalyzeResp.err 400 ("No extracted data provided")
  else if keyMissingAnalyze env then
    AnalyzeResp.ok (AnalyzeOk.mock (demoModeMock body.businessName body.sector body.stage body.yearEnd))
  else
    let note := conversionNote body
    match modelOutcome with
    | Except.error _ =>
      AnalyzeResp.ok (AnalyzeOk.mock (apiErrorMock body.businessName body.sector body.stage body.yearEnd))
    | Except.ok reply =>
      match analyzeFinancialsReply reply with
      | Except.error _ =>
        AnalyzeResp.ok (AnalyzeOk.mock (apiErrorMock body.businessName body.sector body.stage body.yearEnd))
      | Except.ok v =>
        if note = ("") then AnalyzeResp.ok (AnalyzeOk.model v)
        else
          match v with
          | JVal.obj fs => AnalyzeResp.ok (AnalyzeOk.model (prependHealthSummary note (JVal.obj fs)))
          | _ =>
            AnalyzeResp.ok (AnalyzeOk.mock (apiErrorMock body.businessName body.sector body.stage body.yearEnd))

/-! ## extract/route.ts — the POST handler -/

structure UploadFile where
  name : String
  content : String

structure ExtractResp where
  status : ℕ
  body : JVal
  calledModel : Bool

/-- file.name.toLowerCase().split('.').pop() || '': the text after the
last dot of the lower-cased name (the whole name when it has no dot). -/
def extOfAux : List Char → List Char → List Char
  | acc, [] => acc.reverse
  | _, '.' :: rest => extOfAux [] rest
  | acc, c :: rest => extOfAux (c :: acc) rest

def extOf (name : String) : String :=
  String.mk (extOfAux [] (name.data.map Char.toLower))

def monthlyPlaceholder (filename : String) : JVal :=
  JVal.obj
    [ (("type"), JVal.str ("monthly")), (("filename"), JVal.str filename),
      (("period"), JVal.str ("Demo")), (("credits"), JVal.num 0 0),
      (("debits"), JVal.num 0 0), (("openingBal"), JVal.num 0 0),
      (("closingBal"), JVal.num 0 0), (("topIncome"), JVal.arr []),
      (("topExpenses"), JVal.arr []) ]

def fallbackMonthlyBody (filename clean : String) : JVal :=
  JVal.obj
    [ (("type"), JVal.str ("monthly")), (("filename"), JVal.str filename),
      (("period"), JVal.str filename), (("credits"), JVal.num 0 0),
      (("debits"), JVal.num 0 0), (("openingBal"), JVal.num 0 0),
      (("closingBal"), JVal.num 0 0), (("topIncome"), JVal.arr []),
      (("topExpenses"), JVal.arr []),
      (("parseError"), JVal.str (jsSubstring clean 200)) ]

/-- The extract POST handler, after the no-file 400 guard.  xlsxOutcome is
the XLSX.read host call (sheet name and csv text per sheet, or the
stringified thrown error); modelOutcome is the Anthropic call.  content
stands for the uploaded bytes, read as UTF-8 where the route does. -/
def extractPOST (env : Option String) (file : UploadFile) (inputType : String)
    (xlsxOutcome : Except String (List (String × String)))
    (modelOutcome : Except String String) : ExtractResp :=
  let ext := extOf file.name
  if ext = ("xlsx") ∨ ext = ("xls") ∨ ext = ("xlsm") then
    match xlsxOutcome with
    | Except.ok sheets =>
      let text := String.join (sheets.map (fun sh => ("\n=== ") ++ sh.1 ++ (" ===\n") ++ sh.2))
      { status := 200
        body := JVal.obj
          [ (("type"), JVal.str ("text")), (("filename"), JVal.str file.name),
            (("rawText"), JVal.str (jsSubstring text 8000)) ]
        calledModel := false }
    | Except.error e =>
      { status := 200
        body := JVal.obj
          [ (("type"), JVal.str ("text")), (("filename"), JVal.str file.name),
            (("rawText"), JVal.str (("[Excel error: ") ++ e ++ ("]"))) ]
        calledModel := false }
  else if ext = ("csv") then
    { status := 200
      body := JVal.obj
        [ (("type"), JVal.str ("text")), (("filename"), JVal.str file.name),
          (("rawText"), JVal.str (jsSubstring file.content 8000)) ]
      calledModel := false }
  else if ext ≠ ("pdf") then
    { status := 200
      body := JVal.obj
        [ (("type"), JVal.str ("text")), (("filename"), JVal.str file.name),
          (("rawText"), JVal.str (jsSubstring file.content 4000)) ]
      calledModel := false }
  else if keyMissingExtract env then
    { status := 200, body := monthlyPlaceholder file.name, calledModel := false }
  else if inputType == ("bank") then
    match modelOutcome with
    | Except.error e =>
      { status := 500
        body := JVal.obj [(("error"), JVal.str (("Extraction failed: ") ++ e))]
        calledModel := true }
    | Except.ok raw =>
      let clean := cleanFences raw
      match jsonParse clean with
      | some v =>
        { status := 200
          body := JVal.obj
            ([(("type"), JVal.str ("monthly")), (("filename"), JVal.str file.name)] ++ JVal.spread v)
          calledModel := true }
      | none =>
        { status := 200, body := fallbackMonthlyBody file.name clean, calledModel := true }
  else
    match modelOutcome with
    | Except.error e =>
      { status := 500
        body := JVal.obj [(("error"), JVal.str (("Extraction failed: ") ++ e))]
        calledModel := true }
    | Except.ok raw =>
      { status := 200
        body := JVal.obj
          [ (("type"), JVal.str ("text")), (("filename"), JVal.str file.name),
            (("rawText"), JVal.str raw) ]
        calledModel := true }

/-! ## convertBankStatements — the one-shot variant's regex stats

The one-shot convertBankStatementsToManagementAccounts sends every file in
a single request and reads its summary stats off the reply with
/Total Receipts[^R]*R\s*([\d,]+)/i, /Total Payments[^R]*R\s*([\d,]+)/i,
/Period:\s*(.+)/i and /\d{4}\s*\|/g. -/

def isDigitComma (c : Char) : Bool := c.isDigit || c = ','

/-- [^R]*R\s*([\d,]+) after a matched label: under /i the class [^R]*
cannot pass the first R or r, \s* then eats whitespace and the group is
the maximal nonempty digits-and-commas run. -/
def moneyHere (cs : List Char) : Option (List Char) :=
  match cs.dropWhile (fun c => !charLowerEq c 'R') with
  | [] => none
  | _ :: cs2 =>
    let g := (cs2.dropWhile isJsSpace).takeWhile isDigitComma
    if g.isEmpty then none else some g

/-- First match of a /label.../i pattern: try the tail extractor at every
case-insensitive occurrence of the label, left to right. -/
def scanFor (label : List Char) (extract : List Char → Option (List Char)) :
    List Char → Option (List Char)
  | [] => none
  | c :: rest =>
    match stripPrefixCI label (c :: rest) with
    | some after =>
      match extract after with
      | some g => some g
      | none => scanFor label extract rest
    | none => scanFor label extract rest

/-- (.+): a nonempty run of non-line-terminator characters. -/
def dotRun (cs : List Char) : Option (List Char) :=
  let g := cs.takeWhile (fun c => !(c = '\n') && !(c = '\r') && !(c = ' ') && !(c = ' '))
  if g.isEmpty then none else some g

/-- \s*(.+) with the regex engine's backtracking: prefer the longest
whitespace consumption, fall back one whitespace character at a time. -/
def wsThenDot : List Char → List Char → Option (List Char)
  | [], rest => dotRun rest
  | w :: ws, rest =>
    match wsThenDot ws rest with
    | some g => some g
    | none => dotRun (w :: (ws ++ rest))

def periodHere (cs : List Char) : Option (List Char) :=
  wsThenDot (cs.takeWhile isJsSpace) (cs.dropWhile isJsSpace)

/-- One attempt of /\d{4}\s*\|/ at the start: the matched length. -/
def rowHere (cs : List Char) : Option ℕ :=
  match cs with
  | d1 :: d2 :: d3 :: d4 :: r =>
    if d1.isDigit && d2.isDigit && d3.isDigit && d4.isDigit then
      match r.dropWhile isJsSpace with
      | '|' :: _ => some (5 + (r.takeWhile isJsSpace).length)
      | _ => none
    else none
  | _ => none

/-- Count of the non-overlapping /\d{4}\s*\|/g matches; the skip counter
advances past a match as the engine's lastIndex does. -/
def countRowsGo : ℕ → List Char → ℕ
  | _, [] => 0
  | skip+1, _ :: rest => countRowsGo skip rest
  | 0, c :: rest =>
    match rowHere (c :: rest) with
    | some len => 1 + countRowsGo (len - 1) rest
    | none => countRowsGo 0 rest

def countRowMatches (s : String) : ℕ := countRowsGo 0 s.data

/-- parseInt(group.replace(/,/g, '')): none models the NaN a commas-only
group produces. -/
def parseIntCommaStripped (g : List Char) : Option ℕ :=
  let ds := g.filter (fun c => !(c = ','))
  if ds.isEmpty then none else some (digitsToNat ds)

def creditGroup (t : String) : Option (List Char) :=
  scanFor ("Total Receipts").data moneyHere t.data

def debitGroup (t : String) : Option (List Char) :=
  scanFor ("Total Payments").data moneyHere t.data

def periodGroup (t : String) : Option (List Char) :=
  scanFor ("Period:").data periodHere t.data

structure OneShotOutput where
  convertedText : String
  periodCovered : String
  transactionCount : ℕ
  totalCredits : Option ℕ
  totalDebits : Option ℕ

/-- The one-shot convertBankStatementsToManagementAccounts, from the reply
on: the reply is the converted text and the stats are the regex reads. -/
def convertBankStatementsOneShot (reply : String) : OneShotOutput :=
  { convertedText := reply
    periodCovered :=
      match periodGroup reply with
      | some g => trimJS (String.mk g)
      | none => ("Full Year")
    transactionCount := countRowMatches reply * 30
    totalCredits :=
      match creditGroup reply with
      | some g => parseIntCommaStripped g
      | none => some 0
    totalDebits :=
      match debitGroup reply with
      | some g => parseIntCommaStripped g
      | none => some 0 }

/-! ## page.tsx — the step wizard -/

inductive Step where
  | choose | upload | processing | dashboard
deriving DecidableEq

inductive InputType where
  | management | bank
deriving DecidableEq

structure UIState where
  step : Step
  inputType : InputType
  analysis : Option AnalyzeOk
  error : Option String
  /-- How many handleUploadComplete fetch chains are in flight.  The
  continuation of each settles exactly once, whatever step the wizard is
  showing by then. -/
  pending : ℕ

def initUIState : UIState := ⟨Step.choose, InputType.management, none, none, 0⟩

/-- The handlers the page can fire: handleChoose, the upload screen's back
button, handleUploadComplete entering, the analyze fetch resolving or any
phase throwing, the nav bar's New Analysis, and the dashboard's
Re-analyse. -/
inductive UIEvent where
  | chooseType (t : InputType)
  | backToChoose
  | submitUpload
  | processSuccess (r : AnalyzeOk)
  | processFailure (msg : String)
  | newAnalysis
  | reanalyse

/-- The code's stepNumber = choose 1, upload 2, processing 3, dashboard 4. -/
def stepNumber : Step → ℕ
  | Step.choose => 1
  | Step.upload => 2
  | Step.processing => 3
  | Step.dashboard => 4

/-- The render guard of the dashboard branch:
step === 'dashboard' && analysis && <DashboardScreen .../>. -/
def rendersDashboard (s : UIState) : Bool :=
  decide (s.step = Step.dashboard) && s.analysis.isSome

/-- One state transition.  The choose cards, the upload screen's submit
and back, and the dashboard's Re-analyse fire only while their component
is rendered; the New Analysis button sits in the always-rendered nav bar.
The fetch continuations of handleUploadComplete are not tied to any step:
they run whenever a pending request settles, whatever the wizard shows at
that moment (New Analysis stays clickable during processing). -/
def uiStep (s : UIState) (e : UIEvent) : UIState :=
  match e with
  | UIEvent.chooseType t =>
    if s.step = Step.choose then { s with inputType := t, step := Step.upload } else s
  | UIEvent.backToChoose =>
    if s.step = Step.upload then { s with step := Step.choose } else s
  | UIEvent.submitUpload =>
    if s.step = Step.upload then
      { s with step := Step.processing, error := none, pending := s.pending + 1 }
    else s
  | UIEvent.processSuccess r =>
    if 0 < s.pending then
      { s with analysis := some r, step := Step.dashboard, pending := s.pending - 1 }
    else s
  | UIEvent.processFailure msg =>
    if 0 < s.pending then
      { s with error := some msg, step := Step.upload, pending := s.pending - 1 }
    else s
  | UIEvent.newAnalysis =>
    { s with step := Step.choose, analysis := none, error := none }
  | UIEvent.reanalyse =>
    if rendersDashboard s then { s with step := Step.choose, analysis := none } else s

inductive Reachable : UIState → Prop
  | init : Reachable initUIState
  | next (s : UIState) (e : UIEvent) : Reachable s → Reachable (uiStep s e)

/-! ## Helper lemmas -/

theorem foldl_add_eq_sum {α : Type} (f : α → ℚ) (l : List α) (init : ℚ) :
    l.foldl (fun s x => s + f x) init = init + (l.map f).sum := by
  induction l generalizing init with
  | nil => simp
  | cons a t ih => simp [List.foldl_cons, ih, add_assoc]

theorem validMonths_eq_self {months : List MonthExtraction}
    (h : ∀ m ∈ months, 0 < m.credits ∨ 0 < m.debits) :
    validMonths months = months := by
  refine List.filter_eq_self.mpr ?_
  intro m hm
  rcases h m hm with h1 | h1 <;> simp [h1]

theorem routeMonthly_map_toRec (months : List MonthExtraction) :
    routeMonthly (months.map toExtractionRec) = months.map toExtractionRec := by
  refine List.filter_eq_self.mpr ?_
  intro e he
  obtain ⟨m, _, rfl⟩ := List.mem_map.mp he
  rfl

/-! ## Claims -/

theorem jsAdd_num_of_numOrFalsy {o : Option JVal} (h : numOrFalsy o = true) (a : ℚ) :
    jsAdd (JSAcc.num a) (jsOr0 o) = JSAcc.num (a + orZeroJS o) := by
  cases o with
  | none => simp [jsOr0, jsAdd, orZeroJS, decVal]
  | some v =>
    cases v with
    | num m e =>
      by_cases hm : m = 0
      · subst hm
        simp [jsOr0, jsTruthy, jsAdd, orZeroJS, decVal]
      · simp [jsOr0, jsTruthy, hm, jsAdd, orZeroJS]
    | str s =>
      have hs : s = ("") := by simpa [numOrFalsy, jsTruthy] using h
      subst hs
      simp [jsOr0, jsTruthy, jsAdd, orZeroJS, decVal]
    | bool b =>
      have hb : b = false := by simpa [numOrFalsy, jsTruthy] using h
      subst hb
      simp [jsOr0, jsTruthy, jsAdd, orZeroJS, decVal]
    | null => simp [jsOr0, jsTruthy, jsAdd, orZeroJS, decVal]
    | arr xs => simp [numOrFalsy, jsTruthy] at h
    | obj fs => simp [numOrFalsy, jsTruthy] at h

theorem foldl_jsAdd_num (k : String) (l : List JVal) (a : ℚ)
    (h : ∀ e ∈ l, numOrFalsy (JVal.getField e k) = true) :
    l.foldl (fun s m => jsAdd s (jsOr0 (JVal.getField m k))) (JSAcc.num a) =
      JSAcc.num (a + (l.map (fun e => orZeroJS (JVal.getField e k))).sum) := by
  induction l generalizing a with
  | nil => simp
  | cons e t ih =>
    simp only [List.foldl_cons, List.map_cons, List.sum_cons]
    rw [jsAdd_num_of_numOrFalsy (h e (List.mem_cons_self e t)) a]
    rw [ih _ (fun x hx => h x (List.mem_cons_of_mem e hx))]
    rw [add_assoc]

/-- C3 amended: for monthly records whose credits and debits fields are
numbers, missing, or falsy, the analyze route's builder computes total
credits and total debits as the sums of those per-month values (missing
or falsy counted as 0), net profit as their difference, and the margin as
net profit over total credits times 100 to one decimal place when total
credits are positive, the string "0" otherwise; and the conversion
library's builder computes the same formulas over the typed month records
of its validity filter.  A truthy non-numeric field, however, is not
counted as 0: JS keeps the raw value, so a string credits value
string-concatenates into the running total (see the counterexample). -/
theorem claim_C3_amended (exts : List JVal)
    (hc : ∀ e ∈ monthlyJS exts, numOrFalsy (JVal.getField e ("credits")) = true)
    (hd : ∀ e ∈ monthlyJS exts, numOrFalsy (JVal.getField e ("debits")) = true) :
    routeTotalCreditsJS exts =
      JSAcc.num (((monthlyJS exts).map (fun e => orZeroJS (JVal.getField e ("credits")))).sum) ∧
    routeTotalDebitsJS exts =
      JSAcc.num (((monthlyJS exts).map (fun e => orZeroJS (JVal.getField e ("debits")))).sum) ∧
    routeNetProfitJS exts =
      some ((((monthlyJS exts).map (fun e => orZeroJS (JVal.getField e ("credits")))).sum) -
        (((monthlyJS exts).map (fun e => orZeroJS (JVal.getField e ("debits")))).sum)) ∧
    routeGrossMarginJS exts =
      (if 0 < (((monthlyJS exts).map (fun e => orZeroJS (JVal.getField e ("credits")))).sum) then
        toFixed1 (((((monthlyJS exts).map (fun e => orZeroJS (JVal.getField e ("credits")))).sum) -
            (((monthlyJS exts).map (fun e => orZeroJS (JVal.getField e ("debits")))).sum)) /
          (((monthlyJS exts).map (fun e => orZeroJS (JVal.getField e ("credits")))).sum) * 100)
      else ("0")) ∧
    (∀ months : List MonthExtraction,
      libTotalCredits months = ((validMonths months).map (fun m => m.credits)).sum ∧
      libTotalDebits months = ((validMonths months).map (fun m => m.debits)).sum ∧
      libNetProfit months = libTotalCredits months - libTotalDebits months ∧
      libGrossMargin months =
        (if 0 < libTotalCredits months then
          toFixed1 ((libTotalCredits months - libTotalDebits months) / libTotalCredits months * 100)
        else ("0"))) := by
  have h1 : routeTotalCreditsJS exts =
      JSAcc.num (((monthlyJS exts).map (fun e => orZeroJS (JVal.getField e ("credits")))).sum) := by
    unfold routeTotalCreditsJS
    simpa using foldl_jsAdd_num ("credits") (monthlyJS exts) 0 hc
  have h2 : routeTotalDebitsJS exts =
      JSAcc.num (((monthlyJS exts).map (fun e => orZeroJS (JVal.getField e ("debits")))).sum) := by
    unfold routeTotalDebitsJS
    simpa using foldl_jsAdd_num ("debits") (monthlyJS exts) 0 hd
  have h3 : routeNetProfitJS exts =
      some ((((monthlyJS exts).map (fun e => orZeroJS (JVal.getField e ("credits")))).sum) -
        (((monthlyJS exts).map (fun e => orZeroJS (JVal.getField e ("debits")))).sum)) := by
    unfold routeNetProfitJS
    rw [h1, h2]
    rfl
  refine ⟨h1, h2, h3, ?_, ?_⟩
  · unfold routeGrossMarginJS
    rw [h1, h3]
    rfl
  · intro months
    refine ⟨?_, ?_, rfl, rfl⟩
    · simpa using foldl_add_eq_sum (fun m => m.credits) (validMonths months) 0
    · simpa using foldl_add_eq_sum (fun m => m.debits) (validMonths months) 0

/-- C3 counterexample: a monthly record whose credits field is the truthy
string "12,000" is not counted as 0 — `0 + ((credits as number) || 0)`
string-concatenates, leaving the total the string "012,000" instead of a
number. -/
def c3exts : List JVal :=
  [JVal.obj [(("type"), JVal.str ("monthly")), (("credits"), JVal.str ("12,000")),
             (("debits"), JVal.num 5 0)]]

theorem claim_C3_cex :
    routeTotalCreditsJS c3exts = JSAcc.str ("012,000") ∧
    JSAcc.str ("012,000") ≠ JSAcc.num 0 := by
  refine ⟨by rfl, by simp⟩

def c3wExts : List JVal :=
  [JVal.obj [(("type"), JVal.str ("monthly")), (("credits"), JVal.num 10 0),
             (("debits"), JVal.num 4 0)]]

theorem claim_C3_witness :
    routeTotalCreditsJS c3wExts =
      JSAcc.num (((monthlyJS c3wExts).map (fun e => orZeroJS (JVal.getField e ("credits")))).sum) :=
  (claim_C3_amended c3wExts (by decide) (by decide)).1

/-- C4 counterexample: a month whose credits and debits are both 0 (the
fallback record of a failed extraction) is kept by the route builder but
dropped by the conversion library's validity filter, so the two builders
do not even agree on the month count. -/
def c4Month : MonthExtraction :=
  { period := ("Jan 2024"), credits := 0, debits := 0, openingBal := 5,
    closingBal := 7, topIncome := [], topExpenses := [] }

theorem claim_C4_cex :
    routeMonthCount [toExtractionRec c4Month] ≠ libMonthCount [c4Month] := by
  decide

/-- C4 amended: when every month record has positive credits or positive
debits, the route builder and the conversion library builder agree on the
month count, the monthly breakdown rows, and the opening and closing
balances (the surrounding document wording still differs between the
two). -/
theorem claim_C4_amended (months : List MonthExtraction)
    (h : ∀ m ∈ months, 0 < m.credits ∨ 0 < m.debits) :
    routeMonthCount (months.map toExtractionRec) = libMonthCount months ∧
    routeMonthRows (months.map toExtractionRec) = libMonthRows months ∧
    routeOpeningBal (months.map toExtractionRec) = libOpeningBal months ∧
    routeClosingBal (months.map toExtractionRec) = libClosingBal months := by
  have hv : validMonths months = months := validMonths_eq_self h
  have hr := routeMonthly_map_toRec months
  refine ⟨?_, ?_, ?_, ?_⟩
  · simp [routeMonthCount, libMonthCount, hr, hv]
  · unfold routeMonthRows libMonthRows
    rw [hr, hv, List.map_map]
    rfl
  · unfold routeOpeningBal libOpeningBal
    rw [hr, hv, List.head?_map]
    cases months.head? <;> rfl
  · unfold routeClosingBal libClosingBal
    rw [hr, hv, List.getLast?_map]
    cases months.getLast? <;> rfl

def c4wMonth : MonthExtraction :=
  { period := ("Feb 2024"), credits := 10, debits := 5, openingBal := 1,
    closingBal := 2, topIncome := [], topExpenses := [] }

theorem claim_C4_witness :
    routeMonthCount ([c4wMonth].map toExtractionRec) = libMonthCount [c4wMonth] :=
  (claim_C4_amended [c4wMonth]
    (by intro m hm; rw [List.mem_singleton] at hm; subst hm; exact Or.inl (by decide))).1

/-- One uiStep preserves "a dashboard state has a stored analysis". -/
theorem uiStep_preserves_dashboard_analysis (s : UIState) (e : UIEvent)
    (ih : s.step = Step.dashboard → s.analysis ≠ none) :
    (uiStep s e).step = Step.dashboard → (uiStep s e).analysis ≠ none := by
  cases e <;> simp only [uiStep] <;> (try split) <;> simp_all

/-- C8 amended: the dashboard branch is rendered only with a stored
analysis and every reachable dashboard state has one; a settling fetch
always lands on the dashboard with the analysis it carries, a failing one
on upload with the error set, never the dashboard; and while no fetch is
in flight no transition skips a step forward.  A fetch continuation,
however, is not tied to the wizard's current step — New Analysis is
clickable during processing, after which the resolving fetch jumps the
wizard from choose straight to dashboard (see the counterexample). -/
theorem claim_C8_amended :
    (∀ s, Reachable s → s.step = Step.dashboard → s.analysis ≠ none) ∧
    (∀ s, rendersDashboard s = true → s.step = Step.dashboard ∧ s.analysis ≠ none) ∧
    (∀ s e, s.pending = 0 → stepNumber (uiStep s e).step ≤ stepNumber s.step + 1) ∧
    (∀ s r, 0 < s.pending →
      (uiStep s (UIEvent.processSuccess r)).step = Step.dashboard ∧
      (uiStep s (UIEvent.processSuccess r)).analysis = some r) ∧
    (∀ s msg, 0 < s.pending →
      (uiStep s (UIEvent.processFailure msg)).step = Step.upload ∧
      (uiStep s (UIEvent.processFailure msg)).error = some msg ∧
      (uiStep s (UIEvent.processFailure msg)).step ≠ Step.dashboard) := by
  refine ⟨?_, ?_, ?_, ?_, ?_⟩
  · intro s h
    induction h with
    | init => intro h0; simp [initUIState] at h0
    | next s e _ ih => exact uiStep_preserves_dashboard_analysis s e ih
  · intro s h
    simp only [rendersDashboard, Bool.and_eq_true, decide_eq_true_eq] at h
    exact ⟨h.1, Option.isSome_iff_ne_none.mp h.2⟩
  · intro s e hp
    cases e <;> simp only [uiStep] <;> (try split) <;> simp_all [stepNumber]
  · intro s r hp
    simp [uiStep, hp]
  · intro s msg hp
    simp [uiStep, hp]

/-- C8 counterexample: submit an upload, click New Analysis while it is
processing, and let the fetch resolve: the wizard jumps from choose
straight to dashboard, skipping two steps. -/
def c8s3 : UIState :=
  uiStep (uiStep (uiStep initUIState (UIEvent.chooseType InputType.bank))
    UIEvent.submitUpload) UIEvent.newAnalysis

theorem claim_C8_cex :
    Reachable c8s3 ∧ c8s3.step = Step.choose ∧
    (uiStep c8s3 (UIEvent.processSuccess (AnalyzeOk.model JVal.null))).step = Step.dashboard ∧
    ¬ stepNumber (uiStep c8s3 (UIEvent.processSuccess (AnalyzeOk.model JVal.null))).step ≤
        stepNumber c8s3.step + 1 := by
  refine ⟨?_, rfl, rfl, by decide⟩
  exact Reachable.next _ _ (Reachable.next _ _ (Reachable.next _ _ Reachable.init))

def c8PendingState : UIState := ⟨Step.processing, InputType.bank, none, none, 1⟩

theorem claim_C8_witness :
    (uiStep c8PendingState (UIEvent.processFailure ("boom"))).step = Step.upload :=
  (claim_C8_amended.2.2.2.2 c8PendingState ("boom") (by decide)).1

/-- C1: a bank-statement PDF whose model reply fails JSON parsing yields
the default month record — credits, debits, opening and closing balance
all 0, topIncome and topExpenses empty, the period taken from the file
name — instead of an error; the conversion pipeline still assembles the
combined document from every file's record, and the extract route
likewise answers 200 with the default monthly body. -/
theorem claim_C1 :
    (∀ fn reply, jsonParse (cleanFences reply) = none →
      extractPDFMonthlyData fn (Except.ok reply) =
        { period := removeFirst fn (".pdf"), credits := 0, debits := 0,
          openingBal := 0, closingBal := 0, topIncome := [], topExpenses := [],
          error := some (("Could not extract data from ") ++ fn) }) ∧
    (∀ pre post (f : String × Except String String) b s extra cnt,
      (convertBankStatementsToManagementAccounts (pre ++ f :: post) b s extra cnt).convertedText =
        (let ms := pre.map (fun g => extractPDFMonthlyData g.1 g.2) ++
          extractPDFMonthlyData f.1 f.2 :: post.map (fun g => extractPDFMonthlyData g.1 g.2)
         if extra = ("") then buildManagementAccountsText ms b s
         else buildManagementAccountsText ms b s ++ ("\n\n--- ADDITIONAL DATA ---\n") ++ extra)) ∧
    (∀ env file xlsxO reply, keyMissingExtract env = false → extOf file.name = ("pdf") →
      jsonParse (cleanFences reply) = none →
      extractPOST env file ("bank") xlsxO (Except.ok reply) =
        { status := 200, body := fallbackMonthlyBody file.name (cleanFences reply),
          calledModel := true }) := by
  refine ⟨?_, ?_, ?_⟩
  · intro fn reply h
    simp [extractPDFMonthlyData, h, fallbackMonth]
  · intro pre post f b s extra cnt
    simp [convertBankStatementsToManagementAccounts]
  · intro env file xlsxO reply hkey hext hparse
    unfold extractPOST
    rw [hext]
    simp [hkey, hparse]

theorem claim_C1_witness :
    extractPDFMonthlyData ("jan.pdf") (Except.ok ("oops")) =
      { period := ("jan"), credits := 0, debits := 0, openingBal := 0,
        closingBal := 0, topIncome := [], topExpenses := [],
        error := some ("Could not extract data from jan.pdf") } :=
  claim_C1.1 ("jan.pdf") ("oops") (by rfl)

/-- An unset or empty key fails the analyze route's check as well. -/
theorem keyMissingExtract_to_analyze {env : Option String}
    (h : keyMissingExtract env = true) : keyMissingAnalyze env = true := by
  cases env with
  | none => rfl
  | some k =>
    simp only [keyMissingExtract] at h
    simp [keyMissingAnalyze, h]

/-- C5: with no API key configured, the analyze endpoint returns the fixed
demo analysis (healthScore 67, grade Moderate) with the demo-mode warning
prepended to its healthSummary, and the extract endpoint returns the
all-zero monthly placeholder for a PDF; neither is an error response. -/
theorem claim_C5 :
    (∀ env body modelOutcome, keyMissingExtract env = true → body.extractions ≠ [] →
      analyzePOST env body modelOutcome =
        AnalyzeResp.ok (AnalyzeOk.mock
          (demoModeMock body.businessName body.sector body.stage body.yearEnd)) ∧
      (demoModeMock body.businessName body.sector body.stage body.yearEnd).healthScore = 67 ∧
      (demoModeMock body.businessName body.sector body.stage body.yearEnd).healthGrade = ("Moderate") ∧
      (demoModeMock body.businessName body.sector body.stage body.yearEnd).healthSummary =
        ("⚠️ DEMO MODE — No API key configured on this server. Set ANTHROPIC_API_KEY in your Vercel environment variables and redeploy. ") ++
          (getMockAnalysis body.businessName body.sector body.stage body.yearEnd).healthSummary) ∧
    (∀ env file inputType xlsxO modelO, keyMissingExtract env = true →
      extOf file.name = ("pdf") →
      extractPOST env file inputType xlsxO modelO =
        { status := 200, body := monthlyPlaceholder file.name, calledModel := false }) := by
  constructor
  · intro env body modelOutcome hkey hne
    have hk := keyMissingExtract_to_analyze hkey
    have hne2 : body.extractions.isEmpty = false := by
      cases hx : body.extractions with
      | nil => exact absurd hx hne
      | cons a t => rfl
    refine ⟨?_, rfl, rfl, rfl⟩
    simp [analyzePOST, hne2, hk]
  · intro env file inputType xlsxO modelO hkey hext
    unfold extractPOST
    rw [hext]
    simp [hkey]

def textOnlyBody : AnalyzeBody :=
  { businessName := ("Biz"), sector := ("Tech"), stage := ("Growth Stage")
    yearEnd := ("Feb 2025"), inputType := ("management")
    extractions := [{ rtype := some ("text") }] }

theorem claim_C5_witness :
    analyzePOST none textOnlyBody (Except.ok ("")) =
      AnalyzeResp.ok (AnalyzeOk.mock
        (demoModeMock textOnlyBody.businessName textOnlyBody.sector
          textOnlyBody.stage textOnlyBody.yearEnd)) :=
  (claim_C5.1 none textOnlyBody (Except.ok ("")) (by rfl)
    (by simp [textOnlyBody])).1

/-- C9: an upload whose extension is not pdf never reaches the model and
never produces an error status; when spreadsheet parsing throws, the
stringified error is embedded inside the rawText field of a 200 reply. -/
theorem claim_C9 (env : Option String) (file : UploadFile) (inputType : String)
    (xlsxO : Except String (List (String × String))) (modelO : Except String String)
    (h : extOf file.name ≠ ("pdf")) :
    (extractPOST env file inputType xlsxO modelO).calledModel = false ∧
    (extractPOST env file inputType xlsxO modelO).status = 200 ∧
    (∀ e, xlsxO = Except.error e →
      (extOf file.name = ("xlsx") ∨ extOf file.name = ("xls") ∨ extOf file.name = ("xlsm")) →
      (extractPOST env file inputType xlsxO modelO).body.getField ("rawText") =
        some (JVal.str (("[Excel error: ") ++ e ++ ("]")))) := by
  unfold extractPOST
  by_cases hx : extOf file.name = ("xlsx") ∨ extOf file.name = ("xls") ∨ extOf file.name = ("xlsm")
  · rw [if_pos hx]
    cases xlsxO with
    | ok sheets =>
      exact ⟨rfl, rfl, fun e he _ => Except.noConfusion he⟩
    | error e0 =>
      refine ⟨rfl, rfl, ?_⟩
      intro e he _
      injection he with he
      subst he
      rfl
  · rw [if_neg hx]
    by_cases hc : extOf file.name = ("csv")
    · rw [if_pos hc]
      exact ⟨rfl, rfl, fun e _ hcontra => absurd hcontra hx⟩
    · rw [if_neg hc, if_pos h]
      exact ⟨rfl, rfl, fun e _ hcontra => absurd hcontra hx⟩

def c9File : UploadFile := { name := ("notes.txt"), content := ("hello") }

theorem claim_C9_witness :
    (extractPOST none c9File ("bank") (Except.ok []) (Except.ok (""))).calledModel = false :=
  (claim_C9 none c9File ("bank") (Except.ok []) (Except.ok ("")) (by decide)).1

theorem jsSubstring_length_le (s : String) (n : ℕ) : (jsSubstring s n).length ≤ n := by
  have h : (jsSubstring s n).length = (s.data.take n).length := rfl
  rw [h]
  exact List.length_take_le n s.data

/-- C10 amended: the rawText of an Excel upload is truncated to 8000
characters when the sheet parse succeeds, and a csv rawText to 8000, and
any other non-PDF rawText to 4000; the Excel parse-failure branch embeds
the stringified error untruncated, so no bound holds there. -/
theorem claim_C10_amended (env : Option String) (file : UploadFile) (inputType : String)
    (xlsxO : Except String (List (String × String))) (modelO : Except String String) :
    (∀ sheets r, xlsxO = Except.ok sheets →
      (extOf file.name = ("xlsx") ∨ extOf file.name = ("xls") ∨ extOf file.name = ("xlsm")) →
      (extractPOST env file inputType xlsxO modelO).body.getField ("rawText") =
        some (JVal.str r) → r.length ≤ 8000) ∧
    (∀ r, extOf file.name = ("csv") →
      (extractPOST env file inputType xlsxO modelO).body.getField ("rawText") =
        some (JVal.str r) → r.length ≤ 8000) ∧
    (∀ r, ¬ (extOf file.name = ("xlsx") ∨ extOf file.name = ("xls") ∨ extOf file.name = ("xlsm")) →
      ¬ extOf file.name = ("csv") → ¬ extOf file.name = ("pdf") →
      (extractPOST env file inputType xlsxO modelO).body.getField ("rawText") =
        some (JVal.str r) → r.length ≤ 4000) := by
  refine ⟨?_, ?_, ?_⟩
  · rintro sheets r rfl hx hget
    have he : (extractPOST env file inputType (Except.ok sheets) modelO).body.getField ("rawText") =
        some (JVal.str (jsSubstring
          (String.join (sheets.map (fun sh => ("\n=== ") ++ sh.1 ++ (" ===\n") ++ sh.2))) 8000)) := by
      unfold extractPOST
      rw [if_pos hx]
      rfl
    rw [he] at hget
    simp only [Option.some.injEq, JVal.str.injEq] at hget
    rw [← hget]
    exact jsSubstring_length_le _ _
  · intro r hc hget
    by_cases hx : extOf file.name = ("xlsx") ∨ extOf file.name = ("xls") ∨ extOf file.name = ("xlsm")
    · rcases hx with h1 | h1 | h1 <;> rw [hc] at h1 <;> exact absurd h1 (by decide)
    · have he : (extractPOST env file inputType xlsxO modelO).body.getField ("rawText") =
          some (JVal.str (jsSubstring file.content 8000)) := by
        unfold extractPOST
        rw [if_neg hx, if_pos hc]
        rfl
      rw [he] at hget
      simp only [Option.some.injEq, JVal.str.injEq] at hget
      rw [← hget]
      exact jsSubstring_length_le _ _
  · intro r hx hc hp hget
    have he : (extractPOST env file inputType xlsxO modelO).body.getField ("rawText") =
        some (JVal.str (jsSubstring file.content 4000)) := by
      unfold extractPOST
      rw [if_neg hx, if_neg hc, if_pos hp]
      rfl
    rw [he] at hget
    simp only [Option.some.injEq, JVal.str.injEq] at hget
    rw [← hget]
    exact jsSubstring_length_le _ _

theorem claim_C10_witness : (("abc") : String).length ≤ 8000 :=
  (claim_C10_amended none { name := ("d.csv"), content := ("abc") } ("bank")
    (Except.ok []) (Except.ok (""))).2.1 ("abc") (by rfl) (by rfl)

/-- C10 counterexample: in the Excel parse-failure branch the rawText is
the untruncated error text, which exceeds 8000 characters whenever the
stringified XLSX error does. -/
def c10err : String := String.mk (List.replicate 8000 ('x'))

theorem claim_C10_cex :
    (extractPOST none { name := ("a.xlsx"), content := ("") } ("bank")
        (Except.error c10err) (Except.ok (""))).body.getField ("rawText") =
      some (JVal.str (("[Excel error: ") ++ c10err ++ ("]"))) ∧
    8000 < (("[Excel error: ") ++ c10err ++ ("]")).length := by
  refine ⟨by rfl, ?_⟩
  have h1 : c10err.length = 8000 := by
    have h : c10err.length = (List.replicate 8000 ('x')).length := rfl
    rw [h, List.length_replicate]
  rw [String.length_append, String.length_append, h1]
  have h2 : (("[Excel error: ") : String).length = 14 := rfl
  have h3 : (("]") : String).length = 1 := rfl
  rw [h2, h3]
  omega

/-- Shared shape of the unvalidated-delivery lemma: with a key configured
and no conversion note, a reply that parses is delivered exactly as
parsed. -/
theorem analyzePOST_passthrough (env : Option String) (body : AnalyzeBody)
    (reply : String) (v : JVal) (hkey : keyMissingAnalyze env = false)
    (hne : body.extractions ≠ []) (hnote : conversionNote body = (""))
    (hparse : analyzeFinancialsReply reply = Except.ok v) :
    analyzePOST env body (Except.ok reply) = AnalyzeResp.ok (AnalyzeOk.model v) := by
  have hne2 : body.extractions.isEmpty = false := by
    cases hx : body.extractions with
    | nil => exact absurd hx hne
    | cons a t => rfl
  simp [analyzePOST, hne2, hkey, hnote, hparse]

/-- C2 amended: the mock analysis the routes fall back to carries
healthScore 67 — within 0 and 100 — and grade Moderate, and the demo and
API-error variants keep that score; a model-produced analysis, however,
is delivered to the dashboard exactly as parsed, with no validation or
clamping of healthScore anywhere in the code. -/
theorem claim_C2_amended :
    (∀ b s st y,
      (getMockAnalysis b s st y).healthScore = 67 ∧
      (0 : ℚ) ≤ (getMockAnalysis b s st y).healthScore ∧
      (getMockAnalysis b s st y).healthScore ≤ 100 ∧
      (getMockAnalysis b s st y).healthGrade = ("Moderate") ∧
      (demoModeMock b s st y).healthScore = 67 ∧
      (apiErrorMock b s st y).healthScore = 67) ∧
    (∀ env body reply v, keyMissingAnalyze env = false → body.extractions ≠ [] →
      conversionNote body = ("") → analyzeFinancialsReply reply = Except.ok v →
      analyzePOST env body (Except.ok reply) = AnalyzeResp.ok (AnalyzeOk.model v)) := by
  refine ⟨?_, ?_⟩
  · intro b s st y
    refine ⟨rfl, by norm_num [getMockAnalysis], by norm_num [getMockAnalysis], rfl, rfl, rfl⟩
  · intro env body reply v hkey hne hnote hparse
    exact analyzePOST_passthrough env body reply v hkey hne hnote hparse

/-- C2 counterexample: a well-formed model reply with healthScore 150 is
parsed and delivered to the dashboard unchanged — the delivered analysis
carries a healthScore outside 0–100. -/
theorem claim_C2_cex :
    analyzePOST (some ("sk-test")) textOnlyBody (Except.ok ("\x7b\"healthScore\":150\x7d")) =
      AnalyzeResp.ok (AnalyzeOk.model (JVal.obj [(("healthScore"), JVal.num 150 0)])) ∧
    ¬ decVal 150 0 ≤ 100 := by
  refine ⟨by rfl, ?_⟩
  norm_num [decVal]

theorem claim_C2_witness :
    (getMockAnalysis ("B") ("S") ("St") ("Y")).healthScore = 67 ∧
    analyzePOST (some ("k")) textOnlyBody (Except.ok ("\x7b\"a\":1\x7d")) =
      AnalyzeResp.ok (AnalyzeOk.model (JVal.obj [(("a"), JVal.num 1 0)])) :=
  ⟨(claim_C2_amended.1 ("B") ("S") ("St") ("Y")).1,
    claim_C2_amended.2 (some ("k")) textOnlyBody ("\x7b\"a\":1\x7d")
      (JVal.obj [(("a"), JVal.num 1 0)]) (by rfl) (by simp [textOnlyBody]) (by rfl) (by rfl)⟩

/-- C7 amended: the mock analysis contains exactly twelve monthly
revenue/expense pairs (as does the prompt's requested shape), but the
code never checks the monthlyData of a model-produced analysis — it is
delivered to the dashboard exactly as parsed, whatever its length. -/
theorem claim_C7_amended :
    (∀ b s st y,
      (getMockAnalysis b s st y).monthlyData.length = 12 ∧
      (demoModeMock b s st y).monthlyData.length = 12 ∧
      (apiErrorMock b s st y).monthlyData.length = 12) ∧
    (∀ env body reply v fields, keyMissingAnalyze env = false → body.extractions ≠ [] →
      conversionNote body = ("") →
      analyzeFinancialsReply reply = Except.ok (JVal.obj fields) →
      v = JVal.obj fields →
      analyzePOST env body (Except.ok reply) = AnalyzeResp.ok (AnalyzeOk.model v)) := by
  refine ⟨?_, ?_⟩
  · intro b s st y
    exact ⟨rfl, rfl, rfl⟩
  · intro env body reply v fields hkey hne hnote hparse hv
    subst hv
    exact analyzePOST_passthrough env body reply _ hkey hne hnote hparse

/-- C7 counterexample: a parsed reply whose monthlyData is empty is
delivered as is; the dashboard receives a monthlyData without twelve
entries. -/
theorem claim_C7_cex :
    analyzePOST (some ("sk-test")) textOnlyBody (Except.ok ("\x7b\"monthlyData\":[]\x7d")) =
      AnalyzeResp.ok (AnalyzeOk.model (JVal.obj [(("monthlyData"), JVal.arr [])])) ∧
    ([] : List JVal).length ≠ 12 := by
  exact ⟨by rfl, by decide⟩

theorem claim_C7_witness :
    (getMockAnalysis ("B2") ("S2") ("St2") ("Y2")).monthlyData.length = 12 ∧
    analyzePOST (some ("k")) textOnlyBody (Except.ok ("\x7b\"b\":2\x7d")) =
      AnalyzeResp.ok (AnalyzeOk.model (JVal.obj [(("b"), JVal.num 2 0)])) :=
  ⟨(claim_C7_amended.1 ("B2") ("S2") ("St2") ("Y2")).1,
    claim_C7_amended.2 (some ("k")) textOnlyBody ("\x7b\"b\":2\x7d")
      (JVal.obj [(("b"), JVal.num 2 0)]) [(("b"), JVal.num 2 0)]
      (by rfl) (by simp [textOnlyBody]) (by rfl) (by rfl) rfl⟩

/-! ## Lemmas about the regex scanners -/

/-- Executable case-insensitive containment, the scanning skeleton the
/label/i patterns share. -/
def containsCIAux (pat : List Char) : List Char → Bool
  | [] => false
  | c :: rest => (stripPrefixCI pat (c :: rest)).isSome || containsCIAux pat rest

theorem dropWhile_append_all {p : Char → Bool} {xs : List Char} (ys : List Char)
    (h : ∀ c ∈ xs, p c = true) : (xs ++ ys).dropWhile p = ys.dropWhile p := by
  induction xs with
  | nil => rfl
  | cons a t ih =>
    simp only [List.cons_append, List.dropWhile_cons, h a (List.mem_cons_self a t), if_true]
    exact ih (fun c hc => h c (List.mem_cons_of_mem a hc))

theorem takeWhile_append_all {p : Char → Bool} {xs : List Char} (ys : List Char)
    (h : ∀ c ∈ xs, p c = true) : (xs ++ ys).takeWhile p = xs ++ ys.takeWhile p := by
  induction xs with
  | nil => rfl
  | cons a t ih =>
    simp only [List.cons_append, List.takeWhile_cons, h a (List.mem_cons_self a t), if_true]
    rw [ih (fun c hc => h c (List.mem_cons_of_mem a hc))]

theorem stripPrefixCI_self (p cs : List Char) : stripPrefixCI p (p ++ cs) = some cs := by
  induction p with
  | nil => rfl
  | cons a t ih =>
    have ha : charLowerEq a a = true := by simp [charLowerEq]
    simp only [List.cons_append, stripPrefixCI, ha, if_true]
    exact ih

theorem scanFor_eq_none {label : List Char} (ex : List Char → Option (List Char))
    {cs : List Char} (h : containsCIAux label cs = false) :
    scanFor label ex cs = none := by
  induction cs with
  | nil => rfl
  | cons c rest ih =>
    simp only [containsCIAux, Bool.or_eq_false_iff] at h
    obtain ⟨h1, h2⟩ := h
    unfold scanFor
    cases hs : stripPrefixCI label (c :: rest) with
    | some a => rw [hs] at h1; simp at h1
    | none => exact ih h2

theorem scanFor_append (L : Char) (Ls : List Char) (ex : List Char → Option (List Char))
    (a cs : List Char) (h : ∀ c ∈ a, charLowerEq L c = false) :
    scanFor (L :: Ls) ex (a ++ cs) = scanFor (L :: Ls) ex cs := by
  induction a with
  | nil => rfl
  | cons x xs ih =>
    have hx : charLowerEq L x = false := h x (List.mem_cons_self x xs)
    have hstrip : stripPrefixCI (L :: Ls) (x :: (xs ++ cs)) = none := by
      simp [stripPrefixCI, hx]
    show scanFor (L :: Ls) ex (x :: (xs ++ cs)) = _
    conv_lhs => unfold scanFor
    simp only [hstrip]
    exact ih (fun c hc => h c (List.mem_cons_of_mem x hc))

theorem scanFor_here (L : Char) (Ls : List Char) (ex : List Char → Option (List Char))
    {cs after g : List Char} (h1 : stripPrefixCI (L :: Ls) cs = some after)
    (h2 : ex after = some g) : scanFor (L :: Ls) ex cs = some g := by
  cases cs with
  | nil => simp [stripPrefixCI] at h1
  | cons c rest =>
    conv_lhs => unfold scanFor
    simp only [h1, h2]

theorem digitComma_not_space {c : Char} (h : isDigitComma c = true) :
    isJsSpace c = false := by
  cases hsp : isJsSpace c
  · rfl
  · exfalso
    simp only [isJsSpace, Bool.or_eq_true, decide_eq_true_eq] at hsp
    rcases hsp with (((((h1|h1)|h1)|h1)|h1)|h1)|h1 <;> subst h1 <;>
      exact absurd h (by decide)

theorem moneyHere_spec (b w g r : List Char) (R : Char)
    (hb : ∀ c ∈ b, charLowerEq c ('R') = false)
    (hR : charLowerEq R ('R') = true)
    (hw : ∀ c ∈ w, isJsSpace c = true)
    (hg : g ≠ []) (hgd : ∀ c ∈ g, isDigitComma c = true)
    (hr : ∀ c, r.head? = some c → isDigitComma c = false) :
    moneyHere (b ++ R :: (w ++ (g ++ r))) = some g := by
  have hpredR : (!charLowerEq R ('R')) = false := by rw [hR]; rfl
  have h1 : (b ++ R :: (w ++ (g ++ r))).dropWhile (fun c => !charLowerEq c ('R')) =
      R :: (w ++ (g ++ r)) := by
    rw [dropWhile_append_all _ (fun c hc => by rw [hb c hc]; rfl)]
    simp only [List.dropWhile_cons, hpredR]
    rfl
  have h2 : (w ++ (g ++ r)).dropWhile isJsSpace = g ++ r := by
    rw [dropWhile_append_all _ hw]
    cases hg0 : g with
    | nil => exact absurd hg0 hg
    | cons g0 gs =>
      have hns : isJsSpace g0 = false :=
        digitComma_not_space (hgd g0 (by rw [hg0]; exact List.mem_cons_self g0 gs))
      simp [List.dropWhile_cons, hns]
  have h3 : (g ++ r).takeWhile isDigitComma = g := by
    rw [takeWhile_append_all _ hgd]
    have hrt : r.takeWhile isDigitComma = [] := by
      cases hr0 : r with
      | nil => rfl
      | cons r0 rs =>
        have := hr r0 (by rw [hr0]; rfl)
        simp [List.takeWhile_cons, this]
    rw [hrt, List.append_nil]
  unfold moneyHere
  rw [h1]
  simp only [h2, h3]
  cases hg0 : g with
  | nil => exact absurd hg0 hg
  | cons g0 gs => rfl

/-- A model reply in the requested output format, exercised concretely
below.  Note the template's own "Total Receipts (Credits)" wording: the r
of "(Credits)" stops the [^R]* class, so the credits regex finds nothing
and the code reports 0 there, while "Total Payments (Debits)" matches. -/
def sampleConvertedReply : String :=
  ("=== MANAGEMENT ACCOUNTS ===\nPeriod: March 2024 – February 2025\nTotal Receipts (Credits):  R 2,220,000\nTotal Payments (Debits):   R 1,995,000\n--- MONTHLY BREAKDOWN ---\nMarch 2024   | R 185,000 | R 162,000 | R 23,000\nApril 2024   | R 190,000 | R 158,000 | R 32,000\n=== END ===")

set_option maxRecDepth 8192

/-- C6: the conversion stage's summary stats are pure regex reads of the
reply: totalCredits/totalDebits are the comma-stripped integers the
/Total Receipts[^R]*R\s*([\d,]+)/i and /Total Payments.../i patterns
capture and 0 when the pattern finds nothing, periodCovered is the text
after Period: and Full Year when absent, and transactionCount is 30 times
the number of /\d{4}\s*\|/ row matches.  The concrete conjuncts evaluate a
reply in the requested format. -/
theorem claim_C6 :
    (∀ t : String, containsCIAux (("Total Receipts").data) t.data = false →
      (convertBankStatementsOneShot t).totalCredits = some 0) ∧
    (∀ t : String, containsCIAux (("Total Payments").data) t.data = false →
      (convertBankStatementsOneShot t).totalDebits = some 0) ∧
    (∀ t : String, containsCIAux (("Period:").data) t.data = false →
      (convertBankStatementsOneShot t).periodCovered = ("Full Year")) ∧
    (∀ t : String, (convertBankStatementsOneShot t).transactionCount = countRowMatches t * 30) ∧
    (∀ a b w g r : List Char, ∀ R : Char,
      (∀ c ∈ a, charLowerEq ('T') c = false) →
      (∀ c ∈ b, charLowerEq c ('R') = false) →
      charLowerEq R ('R') = true →
      (∀ c ∈ w, isJsSpace c = true) →
      g ≠ [] → (∀ c ∈ g, isDigitComma c = true) →
      (∀ c, r.head? = some c → isDigitComma c = false) →
      (convertBankStatementsOneShot
          (String.mk (a ++ (("Total Receipts").data ++ (b ++ R :: (w ++ (g ++ r))))))).totalCredits =
        parseIntCommaStripped g) ∧
    (convertBankStatementsOneShot sampleConvertedReply).totalCredits = some 0 ∧
    (convertBankStatementsOneShot sampleConvertedReply).totalDebits = some 1995000 ∧
    (convertBankStatementsOneShot sampleConvertedReply).periodCovered =
      ("March 2024 – February 2025") ∧
    (convertBankStatementsOneShot sampleConvertedReply).transactionCount = 60 := by
  refine ⟨?_, ?_, ?_, fun t => rfl, ?_, by rfl, by rfl, by rfl, by rfl⟩
  · intro t h
    have hs : creditGroup t = none := scanFor_eq_none moneyHere h
    simp [convertBankStatementsOneShot, hs]
  · intro t h
    have hs : debitGroup t = none := scanFor_eq_none moneyHere h
    simp [convertBankStatementsOneShot, hs]
  · intro t h
    have hs : periodGroup t = none := scanFor_eq_none periodHere h
    simp [convertBankStatementsOneShot, hs]
  · intro a b w g r R ha hb hR hw hg hgd hr
    have hlabel : (("Total Receipts").data) = ('T') :: (("otal Receipts").data) := rfl
    have hm : moneyHere (b ++ R :: (w ++ (g ++ r))) = some g :=
      moneyHere_spec b w g r R hb hR hw hg hgd hr
    have hstrip : stripPrefixCI (("Total Receipts").data)
        ((("Total Receipts").data) ++ (b ++ R :: (w ++ (g ++ r)))) =
        some (b ++ R :: (w ++ (g ++ r))) := stripPrefixCI_self _ _
    have hcg : creditGroup
        (String.mk (a ++ (("Total Receipts").data ++ (b ++ R :: (w ++ (g ++ r)))))) = some g := by
      show scanFor (("Total Receipts").data) moneyHere
        (a ++ (("Total Receipts").data ++ (b ++ R :: (w ++ (g ++ r))))) = some g
      rw [hlabel] at hstrip ⊢
      rw [scanFor_append ('T') (("otal Receipts").data) moneyHere a _ ha]
      exact scanFor_here ('T') (("otal Receipts").data) moneyHere hstrip hm
    show (match creditGroup
        (String.mk (a ++ (("Total Receipts").data ++ (b ++ R :: (w ++ (g ++ r)))))) with
      | some g0 => parseIntCommaStripped g0
      | none => some 0) = parseIntCommaStripped g
    rw [hcg]

theorem claim_C6_witness :
    (convertBankStatementsOneShot ("no totals here")).totalCredits = some 0 :=
  claim_C6.1 ("no totals here") (by rfl)

end AccelerateIQ
